import Mathlib

/-!
Verification of the Rankking-Be scoring pipeline.

Shallow embedding of `apps/analyzer/pipeline/` (crawler, the six pillar
scorers, the aggregator, the recommendation engine) and of the orchestration
code in `apps/analyzer/tasks.py`.  Python floats are modelled as `ℚ`
(only comparisons, sums, products and divisions by small constants occur, so
the clamping and ordering facts proved here are unaffected by float
rounding); Python dicts whose only role is to carry `findings` lists are
modelled by those lists; HTML/regex feature extraction (BeautifulSoup
queries, regex match counts) is abstracted into input records holding the
extracted counts and flags, one field per quantity the Python code reads,
so every reachable combination of extracted features is covered by the
universally quantified theorems.
-/

namespace Rankking

/-- `utils.safe_score` (utils.py lines 66-67):
`max(0.0, min(float(value), max_val))`. -/
def safe_score (value : ℚ) (max_val : ℚ := 100) : ℚ :=
  max 0 (min value max_val)

/-! ## Aggregator (aggregator.py) -/

/-- One entry of a weight profile: the six pillar weights. -/
structure Weights where
  content : ℚ
  schema : ℚ
  eeat : ℚ
  technical : ℚ
  entity : ℚ
  ai_visibility : ℚ
deriving DecidableEq

/-- `DEFAULT_WEIGHTS` (aggregator.py lines 8-15). -/
def DEFAULT_WEIGHTS : Weights :=
  { content := 0.20, schema := 0.15, eeat := 0.20,
    technical := 0.15, entity := 0.15, ai_visibility := 0.15 }

/-- `INDUSTRY_WEIGHTS` (aggregator.py lines 19-92), keyed by industry name. -/
def INDUSTRY_WEIGHTS : List (String × Weights) :=
  [ ("health",
     { content := 0.15, schema := 0.10, eeat := 0.35,
       technical := 0.10, entity := 0.15, ai_visibility := 0.15 }),
    ("medical",
     { content := 0.15, schema := 0.10, eeat := 0.35,
       technical := 0.10, entity := 0.15, ai_visibility := 0.15 }),
    ("finance",
     { content := 0.15, schema := 0.10, eeat := 0.30,
       technical := 0.10, entity := 0.20, ai_visibility := 0.15 }),
    ("ecommerce",
     { content := 0.15, schema := 0.25, eeat := 0.10,
       technical := 0.15, entity := 0.15, ai_visibility := 0.20 }),
    ("saas",
     { content := 0.20, schema := 0.15, eeat := 0.15,
       technical := 0.15, entity := 0.15, ai_visibility := 0.20 }),
    ("legal",
     { content := 0.15, schema := 0.10, eeat := 0.35,
       technical := 0.10, entity := 0.15, ai_visibility := 0.15 }),
    ("education",
     { content := 0.25, schema := 0.10, eeat := 0.25,
       technical := 0.10, entity := 0.15, ai_visibility := 0.15 }),
    ("news",
     { content := 0.25, schema := 0.15, eeat := 0.25,
       technical := 0.10, entity := 0.10, ai_visibility := 0.15 }),
    ("local_business",
     { content := 0.15, schema := 0.20, eeat := 0.15,
       technical := 0.15, entity := 0.20, ai_visibility := 0.15 }) ]

/-- `get_weights` (aggregator.py lines 140-142):
`INDUSTRY_WEIGHTS.get(industry, DEFAULT_WEIGHTS)`. -/
def get_weights (industry : String) : Weights :=
  match (INDUSTRY_WEIGHTS.find? (fun p => p.1 = industry)) with
  | some p => p.2
  | none => DEFAULT_WEIGHTS

/-- `compute_composite` (aggregator.py lines 145-163). -/
def compute_composite (content schema eeat technical : ℚ)
    (entity : ℚ := 0) (ai_visibility : ℚ := 0)
    (industry : String := "default") : ℚ :=
  let w := get_weights industry
  safe_score (content * w.content + schema * w.schema + eeat * w.eeat
    + technical * w.technical + entity * w.entity + ai_visibility * w.ai_visibility)

/-- `compute_static_composite` (aggregator.py lines 166-188): only the four
static pillars, their weights renormalised to sum 1. -/
def compute_static_composite (content schema eeat technical : ℚ)
    (industry : String := "default") : ℚ :=
  let w := get_weights industry
  let total_weight := w.content + w.schema + w.eeat + w.technical
  safe_score ((content * w.content + schema * w.schema + eeat * w.eeat
    + technical * w.technical) / total_weight)

/-- Sum of the six weights of a profile. -/
def Weights.sum (w : Weights) : ℚ :=
  w.content + w.schema + w.eeat + w.technical + w.entity + w.ai_visibility

/-! ## Content scorer (content.py)

The regex corpora and BeautifulSoup queries are feature extraction; the
input records below hold one field per extracted quantity the code reads
(match counts, tag counts, flags), so the scoring arithmetic, the branch
thresholds and the findings emission are embedded exactly. -/

/-- Features read by `_score_structure` (content.py lines 84-177). -/
structure StructureInput where
  /-- `len(soup.find_all("h1"))` … `h6`: tag count per heading level.  The
  code builds `headings` by appending every level-1 tag, then every level-2
  tag, …, so the list it checks is these counts expanded in level order. -/
  h1Count : ℕ
  h2Count : ℕ
  h3Count : ℕ
  h4Count : ℕ
  h5Count : ℕ
  h6Count : ℕ
  /-- some h2-h4 heading text contains "faq", a class matches /faq/i, an id
  matches /faq/i. -/
  faqHeading : Bool
  faqClass : Bool
  faqId : Bool
  /-- `len(soup.find_all(["ul", "ol"]))`. -/
  listCount : ℕ
  /-- `bool(soup.find_all("table"))`. -/
  hasTables : Bool
  /-- `soup.find("p")`: first paragraph, when present: whether one of
  ANSWER_FIRST_PATTERNS matches its first 200 chars, the word count of those
  chars, and whether one of "is ", "are ", "means ", "refers " occurs. -/
  firstPara : Option (Bool × ℕ × Bool)
  /-- `len(crawl.internal_links)`. -/
  internalLinks : ℕ

/-- The `headings` list of levels as `_score_structure` builds it (all h1
levels, then all h2 levels, …). -/
def StructureInput.headings (s : StructureInput) : List ℕ :=
  List.replicate s.h1Count 1 ++ List.replicate s.h2Count 2 ++
  List.replicate s.h3Count 3 ++ List.replicate s.h4Count 4 ++
  List.replicate s.h5Count 5 ++ List.replicate s.h6Count 6

/-- `hierarchy_ok`: no consecutive pair of the headings list jumps by more
than one level (content.py lines 105-109). -/
def hierarchyOk : List ℕ → Bool
  | a :: b :: rest => decide (b ≤ a + 1) && hierarchyOk (b :: rest)
  | _ => true

/-- `_score_structure` (content.py lines 84-177): (score, findings), the
findings in the insertion order of the `details` dict keys beginning
`_finding`. -/
def score_structure (s : StructureInput) : ℚ × List String :=
  -- 1. H1 present and singular (5 pts)
  let h1Pts : ℚ := if s.h1Count = 1 then 5 else 0
  let h1Find : List String :=
    if s.h1Count = 1 then []
    else if s.h1Count = 0 then ["no_h1"] else ["multiple_h1"]
  -- 2. Proper heading hierarchy (5 pts)
  let hs := s.headings
  let hierPts : ℚ := if hierarchyOk hs ∧ hs ≠ [] then 5 else 0
  let hierFind : List String :=
    if hierarchyOk hs ∧ hs ≠ [] then [] else ["broken_heading_hierarchy"]
  -- 3. FAQ section (8 pts)
  let faq := s.faqHeading || s.faqClass || s.faqId
  let faqPts : ℚ := if faq then 8 else 0
  let faqFind : List String := if faq then [] else ["no_faq_section"]
  -- 4. Lists present (4 pts)
  let listPts : ℚ := if s.listCount ≠ 0 then 4 else 0
  let listFind : List String := if s.listCount ≠ 0 then [] else ["no_lists"]
  -- 5. Tables present (3 pts)
  let tablePts : ℚ := if s.hasTables then 3 else 0
  -- 6. Answer-first format (5 pts)
  let answerFirst :=
    match s.firstPara with
    | none => false
    | some (patternHit, words, copula) =>
        patternHit || (decide (20 ≤ words) && decide (words ≤ 60) && copula)
  let ansPts : ℚ := if answerFirst then 5 else 0
  let ansFind : List String := if answerFirst then [] else ["no_answer_first"]
  -- 7. Internal links >= 3 (5 pts)
  let linkPts : ℚ := if 3 ≤ s.internalLinks then 5 else 0
  let linkFind : List String := if 3 ≤ s.internalLinks then [] else ["few_internal_links"]
  (h1Pts + hierPts + faqPts + listPts + tablePts + ansPts + linkPts,
   h1Find ++ hierFind ++ faqFind ++ listFind ++ ansFind ++ linkFind)

/-- Features read by `_score_geo_quality` (content.py lines 190-407). -/
structure GeoInput where
  /-- `count_words(text)` = `len(text.split())`. -/
  wordCount : ℕ
  /-- total regex matches of CITATION_PATTERNS over the text. -/
  citationMatches : ℕ
  /-- number of h2-h4 headings whose text is exactly one of "references",
  "sources", "bibliography", "works cited", "citations" (each worth +3 on
  the citation count). -/
  refSections : ℕ
  /-- total regex matches of STAT_PATTERNS. -/
  statCount : ℕ
  /-- total regex matches of QUOTE_PATTERNS, and `len(find_all("blockquote"))`. -/
  quoteMatches : ℕ
  blockquotes : ℕ
  /-- total matches of AUTHORITY_PATTERNS and HEDGING_PATTERNS. -/
  authorityCount : ℕ
  hedgeCount : ℕ
  /-- `textstat` importable, `len(text)`, and the two scores it computes. -/
  hasTextstat : Bool
  textLen : ℕ
  fkGrade : ℚ
  fleschEase : ℚ
  /-- technical-term extraction: acronym definitions, standalone acronyms
  after removing the common-word set, hyphen-compound terms. -/
  acronymDefs : ℕ
  technicalAcronyms : ℕ
  compoundTerms : ℕ
  /-- `re.findall(r"\b[a-z]{3,}\b", text_lower)`: total count, and the
  distinct count within the first 500 (the TTR sample). -/
  lowWords : ℕ
  sampleUnique : ℕ
  /-- word counts of the non-empty `<p>` paragraphs. -/
  paraLengths : List ℕ
  /-- total matches of the transition-word patterns. -/
  transitionCount : ℕ
  /-- `re.findall(r"\b[a-z]{2,}\b", text_lower)`: total count (bigrams are
  consecutive pairs, so there are `bigramWords - 1` of them), and the count
  of the most frequent bigram. -/
  bigramWords : ℕ
  topBigramCount : ℕ

/-- Method 1 "Cite Sources" points (content.py lines 205-220): citation
count = regex matches + 3 per dedicated references section. -/
def geoCitePts (g : GeoInput) : ℚ :=
  let citationCount := g.citationMatches + 3 * g.refSections
  if 5 ≤ citationCount then 12 else if 3 ≤ citationCount then 9
  else if 1 ≤ citationCount then 5 else 0

/-- Method 2 "Statistics Addition" points (content.py lines 223-232). -/
def geoStatPts (g : GeoInput) : ℚ :=
  if 5 ≤ g.statCount then 10 else if 3 ≤ g.statCount then 7
  else if 1 ≤ g.statCount then 4 else 0

/-- Method 3 "Expert Quotes" points (content.py lines 235-245): regex
matches plus `<blockquote>` tags. -/
def geoQuotePts (g : GeoInput) : ℚ :=
  let quoteCount := g.quoteMatches + g.blockquotes
  if 3 ≤ quoteCount then 8 else if 1 ≤ quoteCount then 5 else 0

/-- Method 4 "Authoritative Tone" points (content.py lines 248-262):
`net_authority = authority_count - hedge_count` (may be negative). -/
def geoTonePts (g : GeoInput) : ℚ :=
  let netAuthority : ℤ := (g.authorityCount : ℤ) - (g.hedgeCount : ℤ)
  if 4 ≤ netAuthority then 8 else if 2 ≤ netAuthority then 5
  else if 0 ≤ netAuthority ∧ 1 ≤ g.authorityCount then 3 else 0

/-- Method 5 "Easy-to-Understand" points (content.py lines 264-288):
Flesch-Kincaid grade band plus reading-ease band when textstat is usable,
a neutral 3 otherwise. -/
def geoReadPts (g : GeoInput) : ℚ :=
  if g.hasTextstat ∧ 100 < g.textLen then
    (if 6 ≤ g.fkGrade ∧ g.fkGrade ≤ 12 then 4
     else if 4 ≤ g.fkGrade ∧ g.fkGrade ≤ 14 then 2 else 0) +
    (if 60 ≤ g.fleschEase then 3 else if 40 ≤ g.fleschEase then 1 else 0)
  else 3

/-- Method 6 "Technical Terms" points (content.py lines 291-314). -/
def geoTechPts (g : GeoInput) : ℚ :=
  let techCount := g.acronymDefs + g.technicalAcronyms + g.compoundTerms
  if 8 ≤ techCount then 5 else if 4 ≤ techCount then 3
  else if 1 ≤ techCount then 1 else 0

/-- The type-token ratio of the 500-word sample (content.py lines 318-323). -/
def geoTtr (g : GeoInput) : ℚ :=
  let sampleLen := min g.lowWords 500
  if sampleLen ≠ 0 then (g.sampleUnique : ℚ) / (sampleLen : ℚ) else 0

/-- Method 7 "Vocabulary Diversity" points (content.py lines 317-339). -/
def geoVocabPts (g : GeoInput) : ℚ :=
  if 50 ≤ g.wordCount ∧ g.lowWords ≠ 0 then
    (if (13 : ℚ)/20 ≤ geoTtr g then 5 else if (1 : ℚ)/2 ≤ geoTtr g then 3
     else if (7 : ℚ)/20 ≤ geoTtr g then 1 else 0)
  else 0

/-- The average paragraph word count (content.py lines 354-357). -/
def geoAvgPara (g : GeoInput) : ℚ :=
  if g.paraLengths ≠ [] then (g.paraLengths.sum : ℚ) / (g.paraLengths.length : ℚ) else 0

/-- Method 8 "Fluency & Structure" points (content.py lines 342-381): word
count band + paragraph-structure band + transition words. -/
def geoFluencyPts (g : GeoInput) : ℚ :=
  (if 1500 ≤ g.wordCount then 2 else if 800 ≤ g.wordCount then 1 else 0) +
  (if g.paraLengths ≠ [] then
    (if 20 ≤ geoAvgPara g ∧ geoAvgPara g ≤ 80 then 2
     else if 15 ≤ geoAvgPara g ∧ geoAvgPara g ≤ 120 then 1 else 0)
   else 0) +
  (if 5 ≤ g.transitionCount then 1 else 0)

/-- The top-bigram frequency ratio (content.py lines 387-394); there are
`bigramWords - 1` bigrams. -/
def geoStuffingRatio (g : GeoInput) : ℚ :=
  if g.bigramWords - 1 ≠ 0 then (g.topBigramCount : ℚ) / ((g.bigramWords - 1 : ℕ) : ℚ)
  else 0

/-- Method 9 "Keyword Stuffing Penalty" points (content.py lines 384-405). -/
def geoStuffPts (g : GeoInput) : ℚ :=
  if 100 ≤ g.wordCount ∧ g.bigramWords - 1 ≠ 0 then
    (if (3 : ℚ)/100 < geoStuffingRatio g then -5
     else if (2 : ℚ)/100 < geoStuffingRatio g then -2 else 0)
  else 0

/-- `_score_geo_quality` (content.py lines 190-407): (score, findings) in
details-dict insertion order. -/
def score_geo_quality (g : GeoInput) : ℚ × List String :=
  let citeFind : List String :=
    if 1 ≤ g.citationMatches + 3 * g.refSections then [] else ["no_citations"]
  let statFind : List String := if 1 ≤ g.statCount then [] else ["no_statistics"]
  let quoteFind : List String :=
    if 1 ≤ g.quoteMatches + g.blockquotes then [] else ["no_expert_quotes"]
  let netAuthority : ℤ := (g.authorityCount : ℤ) - (g.hedgeCount : ℤ)
  let toneFind : List String :=
    if 4 ≤ netAuthority ∨ 2 ≤ netAuthority ∨ (0 ≤ netAuthority ∧ 1 ≤ g.authorityCount)
    then [] else ["weak_authoritative_tone"]
  let readFind : List String :=
    if g.hasTextstat ∧ 100 < g.textLen then
      (if (6 ≤ g.fkGrade ∧ g.fkGrade ≤ 12) ∨ (4 ≤ g.fkGrade ∧ g.fkGrade ≤ 14) then []
       else ["poor_readability"])
    else []
  let techFind : List String :=
    if 1 ≤ g.acronymDefs + g.technicalAcronyms + g.compoundTerms then []
    else ["no_technical_terms"]
  let vocabFind : List String :=
    if 50 ≤ g.wordCount then
      (if g.lowWords ≠ 0 then
        (if (7 : ℚ)/20 ≤ geoTtr g then [] else ["low_vocabulary_diversity"])
       else ["low_vocabulary_diversity"])
    else []
  let wcFind : List String := if 800 ≤ g.wordCount then [] else ["low_word_count"]
  let paraFind : List String :=
    if g.paraLengths ≠ [] then
      (if (20 ≤ geoAvgPara g ∧ geoAvgPara g ≤ 80) ∨
          (15 ≤ geoAvgPara g ∧ geoAvgPara g ≤ 120) then []
       else ["poor_paragraph_structure"])
    else []
  let stuffFind : List String :=
    if 100 ≤ g.wordCount ∧ g.bigramWords - 1 ≠ 0 ∧ (3 : ℚ)/100 < geoStuffingRatio g
    then ["keyword_stuffing"] else []
  (geoCitePts g + geoStatPts g + geoQuotePts g + geoTonePts g + geoReadPts g
     + geoTechPts g + geoVocabPts g + geoFluencyPts g + geoStuffPts g,
   citeFind ++ statFind ++ quoteFind ++ toneFind ++ readFind ++ techFind
     ++ vocabFind ++ wcFind ++ paraFind ++ stuffFind)

/-- Input of `score_content`: the crawl-ok flag and the two feature records. -/
structure ContentInput where
  ok : Bool
  structure_ : StructureInput
  geo : GeoInput

/-- `score_content` (content.py lines 412-451): 0 on a failed crawl, else
the clamped sum of the structure and GEO sections, findings concatenated. -/
def score_content (c : ContentInput) : ℚ × List String :=
  if !c.ok then (0, [])
  else
    let st := score_structure c.structure_
    let geo := score_geo_quality c.geo
    (safe_score (st.1 + geo.1), st.2 ++ geo.2)

/-- A structure-section input collecting every structure point. -/
def maxStructureInput : StructureInput :=
  { h1Count := 1, h2Count := 1, h3Count := 0, h4Count := 0, h5Count := 0,
    h6Count := 0, faqHeading := true, faqClass := false, faqId := false,
    listCount := 1, hasTables := true, firstPara := some (true, 30, true),
    internalLinks := 3 }

/-- A GEO-section input collecting every GEO point. -/
def maxGeoInput : GeoInput :=
  { wordCount := 1600, citationMatches := 5, refSections := 0, statCount := 5,
    quoteMatches := 3, blockquotes := 0, authorityCount := 4, hedgeCount := 0,
    hasTextstat := true, textLen := 9000, fkGrade := 8, fleschEase := 65,
    acronymDefs := 8, technicalAcronyms := 0, compoundTerms := 0,
    lowWords := 500, sampleUnique := 400, paraLengths := [40, 40],
    transitionCount := 5, bigramWords := 1600, topBigramCount := 10 }

/-! ## Schema scorer (schema.py)

`_extract_jsonld` parses each `<script type="application/ld+json">` block,
drops unparseable ones and flattens top-level arrays; its output, a list of
parsed objects, is the input here.  A parsed object is modelled by its
`"@type"` value, the set of property names present with a non-empty value
(the `obj.get(prop) not in (None, "", [], {})` test of
`_compute_completeness`), its `"@context"`/`"@graph"` keys and its nested
`"@graph"` objects (non-dict graph entries, which the code skips, are left
out of the model). -/

/-- The Python value of a dict's `"@type"` key: missing, a string, or a
list of strings. -/
inductive TypeField : Type
  | absent : TypeField
  | str (s : String) : TypeField
  | list (ss : List String) : TypeField
deriving DecidableEq

mutual

/-- One parsed JSON-LD object; `SGraph` is its list of `"@graph"` child
objects (a mutual inductive rather than `List SObj` so that the recursive
functions below are structural and reduce in the kernel). -/
inductive SObj : Type
  | mk (typeField : TypeField) (present : List String)
       (hasContext : Bool) (hasGraphKey : Bool) (graph : SGraph)

/-- The `"@graph"` children of a parsed JSON-LD object. -/
inductive SGraph : Type
  | nil
  | cons (head : SObj) (tail : SGraph)

end

def SObj.typeField : SObj → TypeField | .mk t _ _ _ _ => t

def SObj.present : SObj → List String | .mk _ p _ _ _ => p

def SObj.hasContext : SObj → Bool | .mk _ _ c _ _ => c

def SObj.hasGraphKey : SObj → Bool | .mk _ _ _ g _ => g

def SObj.graph : SObj → SGraph | .mk _ _ _ _ gr => gr

/-- `"@type" in schema` (used by `_get_all_objects`, schema.py line 69). -/
def SObj.hasTypeKey (o : SObj) : Bool := o.typeField ≠ .absent

/-- `obj.get("@type", "")` wrapped to a list as the scoring loops do
(schema.py lines 184-185, 211-212): a non-list value becomes a one-element
list (a missing key the empty string). -/
def SObj.objTypes (o : SObj) : List String :=
  match o.typeField with
  | .absent => [""]
  | .str s => [s]
  | .list ss => ss

mutual

/-- `_get_all_objects` (schema.py lines 66-74): the object itself when it
carries `"@type"`, plus the flattened objects of its `"@graph"`, in order. -/
def SObj.allObjects : SObj → List SObj
  | .mk t p c g gr =>
      (if SObj.hasTypeKey (.mk t p c g gr) then [SObj.mk t p c g gr] else []) ++
        SGraph.allObjectsList gr

def SGraph.allObjectsList : SGraph → List SObj
  | .nil => []
  | .cons o os => SObj.allObjects o ++ SGraph.allObjectsList os

end

mutual

/-- `_get_types` (schema.py lines 77-87), before set-deduplication: a string
`"@type"` contributes itself (a missing key contributes `""`, the
`schema.get("@type", "")` default), a list contributes its members, and the
`"@graph"` objects contribute recursively. -/
def SObj.typesRec : SObj → List String
  | .mk t _p _c _g gr =>
      (match t with
       | .absent => [""]
       | .str s => [s]
       | .list ss => ss) ++ SGraph.typesRecList gr

def SGraph.typesRecList : SGraph → List String
  | .nil => []
  | .cons o os => SObj.typesRec o ++ SGraph.typesRecList os

end

/-- `SCHEMA_REQUIRED_PROPS` (schema.py lines 10-28). -/
def SCHEMA_REQUIRED_PROPS : List (String × List String) :=
  [ ("FAQPage", ["mainEntity"]),
    ("Article", ["headline", "author", "datePublished"]),
    ("NewsArticle", ["headline", "author", "datePublished"]),
    ("BlogPosting", ["headline", "author", "datePublished"]),
    ("Organization", ["name", "url"]),
    ("LocalBusiness", ["name", "address"]),
    ("Product", ["name"]),
    ("HowTo", ["name", "step"]),
    ("BreadcrumbList", ["itemListElement"]),
    ("WebSite", ["name", "url"]),
    ("WebPage", ["name"]),
    ("VideoObject", ["name", "uploadDate"]),
    ("Event", ["name", "startDate"]),
    ("Review", ["itemReviewed", "reviewRating"]),
    ("AggregateRating", ["ratingValue", "reviewCount"]),
    ("SoftwareApplication", ["name"]),
    ("Service", ["name"]) ]

/-- `SCHEMA_RECOMMENDED_PROPS` (schema.py lines 31-49). -/
def SCHEMA_RECOMMENDED_PROPS : List (String × List String) :=
  [ ("FAQPage", []),
    ("Article", ["image", "publisher", "dateModified", "description"]),
    ("NewsArticle", ["image", "publisher", "dateModified", "description"]),
    ("BlogPosting", ["image", "publisher", "dateModified", "description"]),
    ("Organization", ["logo", "sameAs", "description", "contactPoint", "address"]),
    ("LocalBusiness", ["telephone", "openingHours", "geo"]),
    ("Product", ["description", "image", "offers", "brand", "review", "aggregateRating"]),
    ("HowTo", ["description", "image", "totalTime"]),
    ("BreadcrumbList", []),
    ("WebSite", ["potentialAction", "description"]),
    ("WebPage", ["description", "datePublished"]),
    ("VideoObject", ["description", "thumbnailUrl", "duration"]),
    ("Event", ["location", "description", "endDate"]),
    ("Review", ["author", "datePublished"]),
    ("AggregateRating", ["bestRating"]),
    ("SoftwareApplication", ["applicationCategory", "offers", "operatingSystem"]),
    ("Service", ["description", "provider", "areaServed"]) ]

/-- The `required_missing` report entry of `_compute_completeness`
(schema.py lines 96-101). -/
def requiredMissing (o : SObj) (t : String) : List String :=
  ((SCHEMA_REQUIRED_PROPS.lookup t).getD []).filter (fun p => !o.present.contains p)

/-- `_compute_completeness` (schema.py lines 90-116): required completeness
weighted 0.7, recommended 0.3, an empty property set counting as 1.0. -/
def completeness (o : SObj) (t : String) : ℚ :=
  let req := (SCHEMA_REQUIRED_PROPS.lookup t).getD []
  let recd := (SCHEMA_RECOMMENDED_PROPS.lookup t).getD []
  let reqPresent := (req.filter (fun p => o.present.contains p)).length
  let recPresent := (recd.filter (fun p => o.present.contains p)).length
  let reqScore : ℚ := if req.length ≠ 0 then (reqPresent : ℚ) / (req.length : ℚ) else 1
  let recScore : ℚ := if recd.length ≠ 0 then (recPresent : ℚ) / (recd.length : ℚ) else 1
  reqScore * 0.7 + recScore * 0.3

/-- `identity_types = {"Organization", "LocalBusiness", "Corporation"}`
(schema.py line 176).  A Python string-set's iteration order is
unspecified (hash-randomised); it is fixed to literal order here, and no
theorem below depends on it. -/
def identityTypes : List String := ["Organization", "LocalBusiness", "Corporation"]

/-- The identity-schema points (schema.py lines 179-200): the first identity
type found in `all_types`, scored on the first object carrying it. -/
def schemaIdentityPts (allTypes : List String) (allObjs : List SObj) : ℚ :=
  match identityTypes.find? (fun t => allTypes.contains t) with
  | none => 0
  | some t =>
      match allObjs.find? (fun o => o.objTypes.contains t) with
      | none => 0
      | some o => 15 * completeness o t

/-- `str.lower()` written on the character list (`String.toLower` maps
`Char.toLower` over the characters; this form reduces in the kernel). -/
def strToLower (s : String) : String := ⟨s.data.map Char.toLower⟩

/-- The `incomplete_<type>_schema` finding key (schema.py line 237). -/
def incompleteKey (t : String) : String := "incomplete_" ++ strToLower t ++ "_schema"

/-- State of the quality-and-completeness loop (schema.py lines 206-237):
`scored_types`, accumulated completeness, entry count, emitted findings. -/
structure QState where
  scored : List String
  qsum : ℚ
  entries : ℕ
  finds : List String
deriving DecidableEq

/-- One `schema_type` iteration of the quality loop (schema.py
lines 214-237). -/
def qualityStep (o : SObj) (st : QState) (t : String) : QState :=
  if t ∈ st.scored then st
  else if t ∈ identityTypes then st
  else if (SCHEMA_REQUIRED_PROPS.lookup t).isNone then st
  else
    { scored := st.scored ++ [t],
      qsum := st.qsum + completeness o t,
      entries := st.entries + 1,
      finds := st.finds ++ (if requiredMissing o t ≠ [] then [incompleteKey t] else []) }

/-- The full quality loop over `all_objects` (schema.py lines 210-237). -/
def qualityLoop (objs : List SObj) : QState :=
  objs.foldl (fun st o => o.objTypes.foldl (qualityStep o) st) ⟨[], 0, 0, []⟩

/-- The 50-point quality block (schema.py lines 239-249): average
completeness scaled by the type-coverage factor. -/
def schemaQualityPts (q : QState) : ℚ :=
  if 0 < q.entries then
    50 * (q.qsum / (q.entries : ℚ)) * min 1 (0.4 + (q.entries : ℚ) * 0.2)
  else 0

/-- The variety bonus (schema.py lines 251-261) on the distinct type count. -/
def schemaVarietyPts (typeCount : ℕ) : ℚ :=
  if 5 ≤ typeCount then 15 else if 3 ≤ typeCount then 10
  else if 2 ≤ typeCount then 6 else 2

/-- Input of `score_schema`: the crawl-ok flag and the parsed JSON-LD
objects `_extract_jsonld` returns. -/
structure SchemaInput where
  ok : Bool
  schemas : List SObj

/-- `all_objects` of `score_schema` (schema.py lines 151-153). -/
def schemaAllObjects (inp : SchemaInput) : List SObj :=
  inp.schemas.flatMap SObj.allObjects

/-- `all_types` of `score_schema` (schema.py lines 155-158), deduplicated
as the Python set is. -/
def schemaAllTypes (inp : SchemaInput) : List String :=
  (inp.schemas.flatMap SObj.typesRec).dedup

/-- `score_schema` (schema.py lines 119-269): (score, findings). -/
def score_schema (inp : SchemaInput) : ℚ × List String :=
  if !inp.ok then (0, [])
  else if inp.schemas.isEmpty then (0, ["no_jsonld"])
  else
    let allObjs := schemaAllObjects inp
    let allTypes := schemaAllTypes inp
    let valid := inp.schemas.all (fun s => s.hasContext || s.hasGraphKey)
    let validPts : ℚ := if valid then 5 else 0
    let validFind : List String := if valid then [] else ["invalid_jsonld_structure"]
    let hasIdentity := allTypes.any (fun t => identityTypes.contains t)
    let identPts := if hasIdentity then schemaIdentityPts allTypes allObjs else 0
    let identFind : List String := if hasIdentity then [] else ["no_organization_schema"]
    let q := qualityLoop allObjs
    (safe_score (15 + validPts + identPts + schemaQualityPts q
        + schemaVarietyPts allTypes.length),
     validFind ++ identFind ++ q.finds)

/-! ## Technical scorer (technical.py) -/

/-- `AI_BOT_AGENTS` (technical.py lines 9-12). -/
def AI_BOT_AGENTS : List String :=
  ["GPTBot", "Google-Extended", "anthropic-ai", "ClaudeBot",
   "PerplexityBot", "ChatGPT-User", "CCBot"]

/-- Substring test (`bot.lower() in current_agent`). -/
def strContains (needle hay : String) : Bool :=
  decide (needle.data <:+: hay.data)

/-- One line of the robots.txt scan (technical.py lines 21-31): state is the
`current_agent` (set by `User-agent:` lines) and the accumulated blocked
bots; a `Disallow: /` or `Disallow: /*` under a truthy agent blocks every
AI bot whose lowercase name occurs in the agent (or all when agent is `*`). -/
def robotsStep (st : Option String × List String) (line : String) :
    Option String × List String :=
  let l := line.trim
  if l.startsWith "user-agent:" then (some ((l.drop 11).trim), st.2)
  else if l.startsWith "disallow:" ∧ st.1.getD "" ≠ "" then
    let path := (l.drop 9).trim
    if path = "/" ∨ path = "/*" then
      let agent := st.1.getD ""
      (st.1, st.2 ++ AI_BOT_AGENTS.filter
        (fun bot => agent = "*" || strContains bot.toLower agent))
    else st
  else st

/-- `_check_robots_allows_ai` (technical.py lines 15-34) over the lines of
`robots_txt.lower().splitlines()`: (allows, blocked bots). -/
def check_robots_allows_ai (lines : List String) : Bool × List String :=
  let blocked := (lines.foldl robotsStep (none, [])).2
  (blocked.isEmpty, blocked)

/-- Features read by `score_technical` (technical.py lines 37-144).
`robotsLines` holds `fetch_file_content(url, "robots.txt").lower()` split
into lines (empty when the fetch failed, the code's `""` default). -/
structure TechnicalInput where
  ok : Bool
  isHttps : Bool
  loadTime : ℚ
  hasLlmsTxt : Bool
  robotsLines : List String
  hasSitemap : Bool
  noindex : Bool
  hasViewport : Bool
  hasCanonical : Bool

/-- `score_technical` (technical.py lines 37-144): (score, findings).  The
HTML-independent subtotal is rescaled by 100/70 when the page HTML is
absent and the subtotal is positive. -/
def score_technical (t : TechnicalInput) : ℚ × List String :=
  let llmsPts : ℚ := if t.hasLlmsTxt then 20 else 0
  let llmsFind : List String := if t.hasLlmsTxt then [] else ["no_llms_txt"]
  let hasRobots := t.robotsLines.any (fun l => l.trim ≠ "")
  let allowsAi := (check_robots_allows_ai t.robotsLines).1
  let robotsPts : ℚ := if hasRobots then (if allowsAi then 20 else 0) else 20
  let robotsFind : List String :=
    if hasRobots ∧ ¬ allowsAi then ["ai_bots_blocked"] else []
  let sitemapPts : ℚ := if t.hasSitemap then 10 else 0
  let sitemapFind : List String := if t.hasSitemap then [] else ["no_sitemap"]
  let httpsPts : ℚ := if t.isHttps then 5 else 0
  let httpsFind : List String := if t.isHttps then [] else ["no_https"]
  let loadPts : ℚ :=
    if 0 < t.loadTime then
      (if t.loadTime < 3/2 then 15 else if t.loadTime < 3 then 10
       else if t.loadTime < 5 then 5 else 0)
    else 0
  let loadFind : List String :=
    if 0 < t.loadTime ∧ ¬ (t.loadTime < 3/2) ∧ ¬ (t.loadTime < 3) ∧ ¬ (t.loadTime < 5)
    then ["slow_load_time"] else []
  let base := llmsPts + robotsPts + sitemapPts + httpsPts + loadPts
  let noindexPts : ℚ := if ¬ t.noindex then 10 else 0
  let noindexFind : List String := if ¬ t.noindex then [] else ["meta_noindex"]
  let viewportPts : ℚ := if t.hasViewport then 10 else 0
  let viewportFind : List String := if t.hasViewport then [] else ["no_viewport"]
  let canonicalPts : ℚ := if t.hasCanonical then 10 else 0
  let canonicalFind : List String := if t.hasCanonical then [] else ["no_canonical"]
  let total :=
    if t.ok then base + noindexPts + viewportPts + canonicalPts
    else (if 0 < base then base * (100 / 70) else base)
  let htmlFinds : List String :=
    if t.ok then noindexFind ++ viewportFind ++ canonicalFind else []
  (safe_score total,
   llmsFind ++ robotsFind ++ sitemapFind ++ httpsFind ++ loadFind ++ htmlFinds)

/-! ## E-E-A-T scorer (eeat.py) -/

/-- Features read by `_score_structural_signals` (eeat.py lines 45-132). -/
structure EeatStructIn where
  /-- `len(external_links)`. -/
  extCount : ℕ
  /-- links to the trust-domain/TLD allowlist. -/
  trustLinkCount : ℕ
  /-- distinct external domains. -/
  sourceDiversity : ℕ
  /-- `<time datetime>` or `article:published_time` meta present. -/
  hasDate : Bool
  /-- `article:modified_time` meta present. -/
  hasModified : Bool
  hasAbout : Bool
  hasContact : Bool
  hasPrivacy : Bool
  hasTerms : Bool

/-- `_score_structural_signals` points (eeat.py lines 45-132), max 40. -/
def eeatStructuralPts (s : EeatStructIn) : ℚ :=
  (if 5 ≤ s.extCount then 10 else if 3 ≤ s.extCount then 7
   else if 1 ≤ s.extCount then 3 else 0) +
  (if 3 ≤ s.trustLinkCount then 10 else if 1 ≤ s.trustLinkCount then 6 else 0) +
  (if 5 ≤ s.sourceDiversity then 5 else if 3 ≤ s.sourceDiversity then 3 else 0) +
  (if s.hasDate then 3 else 0) + (if s.hasModified then 2 else 0) +
  min 10 (3 * ((if s.hasAbout then 1 else 0) + (if s.hasContact then 1 else 0)
    + (if s.hasPrivacy then 1 else 0) + (if s.hasTerms then 1 else 0) : ℚ))

/-- The four dimension scores of a successful Gemini E-E-A-T reply, as
parsed from its JSON (arbitrary numbers before validation). -/
structure GeminiEeat where
  experience : ℚ
  expertise : ℚ
  authoritativeness : ℚ
  trustworthiness : ℚ

/-- The validation clamp of `_gemini_eeat_analysis` (eeat.py line 189):
`max(0, min(10, score))`. -/
def clamp10 (x : ℚ) : ℚ := max 0 (min 10 x)

/-- Features read by `_static_content_eeat` (eeat.py lines 200-339). -/
structure EeatStaticIn where
  authorFound : Bool
  bioFound : Bool
  /-- first-person experience pattern hits. -/
  expCount : ℕ
  /-- expertise depth pattern hits. -/
  depthCount : ℕ
  hasDisclosure : Bool
  hasOrgInfo : Bool
  /-- source-mention pattern hits. -/
  sourceCount : ℕ

/-- `_static_content_eeat` points (eeat.py lines 200-339), max 60. -/
def eeatStaticPts (s : EeatStaticIn) : ℚ :=
  (if s.authorFound then 15 else 0) + (if s.bioFound then 10 else 0) +
  (if 3 ≤ s.expCount then 10 else if 1 ≤ s.expCount then 5 else 0) +
  (if 4 ≤ s.depthCount then 10 else if 2 ≤ s.depthCount then 6
   else if 1 ≤ s.depthCount then 3 else 0) +
  ((if s.hasDisclosure then 5 else 0) + (if s.hasOrgInfo then 5 else 0) +
   (if 2 ≤ s.sourceCount then 5 else if 1 ≤ s.sourceCount then 3 else 0))

/-- `_static_content_eeat` findings, in details insertion order. -/
def eeatStaticFinds (s : EeatStaticIn) : List String :=
  (if s.authorFound then [] else ["no_author"]) ++
  (if s.bioFound then [] else ["no_author_bio"]) ++
  (if 1 ≤ s.expCount then [] else ["no_first_hand_experience"]) ++
  (if 1 ≤ s.depthCount then [] else ["no_expertise_indicators"])

/-- Input of `score_eeat`: crawl-ok, the structural features, the Gemini
analysis when the LLM call succeeded (`none` = failed or unavailable), and
the static-fallback features. -/
structure EeatInput where
  ok : Bool
  structural : EeatStructIn
  gemini : Option GeminiEeat
  static_ : EeatStaticIn

/-- `score_eeat` (eeat.py lines 344-429): (score, findings). -/
def score_eeat (e : EeatInput) : ℚ × List String :=
  if !e.ok then (0, [])
  else
    let s := e.structural
    let structuralFinds : List String :=
      (if ¬ s.hasDate then ["no_publish_date"] else []) ++
      (if ¬ s.hasModified then ["no_updated_date"] else []) ++
      (if s.extCount < 3 then ["few_external_citations"] else []) ++
      (if s.trustLinkCount = 0 then ["no_trust_links"] else []) ++
      (if s.sourceDiversity < 3 then ["low_source_diversity"] else []) ++
      (if ¬ s.hasAbout then ["no_about_page"] else [])
    match e.gemini with
    | some g =>
        let ex := clamp10 g.experience
        let xp := clamp10 g.expertise
        let au := clamp10 g.authoritativeness
        let tr := clamp10 g.trustworthiness
        let contentPts := (ex / 10) * 15 + (xp / 10) * 15 + (au / 10) * 15 + (tr / 10) * 15
        let geminiFinds : List String :=
          (if ex < 4 then ["no_first_hand_experience"] else []) ++
          (if xp < 4 then ["no_expertise_indicators"] else []) ++
          (if au < 4 then ["low_authority"] else []) ++
          (if tr < 4 then ["low_trust_signals"] else [])
        (safe_score (eeatStructuralPts s + contentPts), structuralFinds ++ geminiFinds)
    | none =>
        (safe_score (eeatStructuralPts s + eeatStaticPts e.static_),
         structuralFinds ++ eeatStaticFinds e.static_)

/-! ## Entity scorer (entity.py) -/

/-- One item of a JSON-LD `"@graph"` as the static entity loop reads it
(entity.py lines 137-147): whether its `"@type"` is/contains
`"Organization"`, and whether its `sameAs` value is truthy. -/
structure GNode where
  isOrg : Bool
  sameAs : Bool

/-- One top-level object of a parsed `<script type="application/ld+json">`
block as the static entity loop reads it (entity.py lines 122-148). -/
structure ENode where
  topOrg : Bool
  topSameAs : Bool
  graph : List GNode

/-- The per-script part of the Organization-schema loop of
`_static_entity_signals` (entity.py lines 120-150): the first object with a
top-level Organization type scores 10 (+5 for `sameAs`) and stops the
scan of this script; an object whose `"@graph"` contains an Organization
scores for its first such item and the scan continues with the next
object. -/
def orgPointsSchemas : List ENode → ℚ
  | [] => 0
  | s :: rest =>
      if s.topOrg then 10 + (if s.topSameAs then 5 else 0)
      else
        (match s.graph.find? (fun g => g.isOrg) with
         | some g => 10 + (if g.sameAs then 5 else 0)
         | none => 0) + orgPointsSchemas rest

/-- Features read by `_static_entity_signals` (entity.py lines 91-171). -/
structure EntityStaticIn where
  /-- distinct social-platform domains among the page's links (the same
  loop is run by the LLM path, entity.py lines 222-235). -/
  socialCount : ℕ
  /-- the parsed objects of each JSON-LD script block (failed parses
  dropped, a single dict as a one-element list). -/
  scripts : List (List ENode)
  /-- how many of the five contact patterns occur in the HTML. -/
  contactHits : ℕ
  /-- length of the first label of the domain without `www.`. -/
  domainLabelLen : ℕ

/-- `_static_entity_signals` points (entity.py lines 91-171). -/
def entityStaticPts (s : EntityStaticIn) : ℚ :=
  (if 3 ≤ s.socialCount then 15 else if 2 ≤ s.socialCount then 10
   else if 1 ≤ s.socialCount then 5 else 0) +
  (s.scripts.map orgPointsSchemas).sum +
  (if 2 ≤ s.contactHits then 10 else 0) +
  (if s.domainLabelLen ≤ 15 then 10 else 0)

/-- Features read by `score_entity` (entity.py lines 174-268). -/
structure EntityInput where
  ok : Bool
  /-- `extract_brand_name(soup, url)` (never scores the +5 when empty). -/
  brandName : String
  /-- Wikipedia title-substring hit. -/
  hasWiki : Bool
  /-- `is_available()` of the LLM gateway. -/
  useLlm : Bool
  /-- LLM path: knowledge-panel verdict, third-party mention score (an
  unvalidated JSON number), social link count, domain label length. -/
  wellKnown : Bool
  mentionScore : ℚ
  socialCount : ℕ
  domainLabelLen : ℕ
  /-- static-fallback path features. -/
  static_ : EntityStaticIn

/-- `score_entity` (entity.py lines 174-268): (score, findings). -/
def score_entity (e : EntityInput) : ℚ × List String :=
  if !e.ok then (0, [])
  else
    let brandPts : ℚ := if e.brandName ≠ "" then 5 else 0
    let wikiPts : ℚ := if e.hasWiki then 25 else 0
    let wikiFind : List String := if e.hasWiki then [] else ["no_wikipedia_presence"]
    if e.useLlm then
      let kpPts : ℚ := if e.wellKnown then 25 else 0
      let kpFind : List String := if e.wellKnown then [] else ["brand_not_in_ai"]
      let tpPts : ℚ := min 25 (e.mentionScore * (5/2))
      let socialPts : ℚ :=
        if 2 ≤ e.socialCount then 10 else if e.socialCount = 1 then 5 else 0
      let socialFind : List String :=
        if 2 ≤ e.socialCount ∨ e.socialCount = 1 then [] else ["no_social_profiles"]
      let domainPts : ℚ := if e.domainLabelLen ≤ 15 then 10 else 0
      (safe_score (brandPts + wikiPts + kpPts + tpPts + socialPts + domainPts),
       wikiFind ++ kpFind ++ socialFind)
    else
      let staticScore := entityStaticPts e.static_
      let scaledStatic : ℚ := if 0 < staticScore then (staticScore / 50) * 65 else 0
      let socialFind : List String :=
        if e.static_.socialCount = 0 then ["no_social_profiles"] else []
      (safe_score (brandPts + wikiPts + scaledStatic), wikiFind ++ socialFind)

/-! ## AI-visibility scorer (ai_visibility.py) -/

/-- Features read by `_analyze_mention_quality` (ai_visibility.py
lines 304-364) for one probe's combined response text. -/
structure MentionIn where
  /-- `len(text_lower)`. -/
  textLen : ℕ
  /-- earliest `text_lower.find(alias)` over the aliases, `none` when no
  alias occurs as a plain substring. -/
  firstPos : Option ℕ
  /-- positive / negative keyword hits in the surrounding window. -/
  posHits : ℕ
  negHits : ℕ
  /-- context trigger words in the window. -/
  ctxRecommend : Bool
  ctxCompare : Bool
  ctxTop : Bool

/-- The context-type classification (ai_visibility.py lines 348-353). -/
def mentionContext (m : MentionIn) : String :=
  if m.ctxRecommend then "recommended"
  else if m.ctxCompare then "compared"
  else if m.ctxTop then "top_mentioned"
  else "listed"

/-- The prominence score of `_analyze_mention_quality` (ai_visibility.py
lines 316-362): 0 when no alias is found as a substring, else the clamped
sum of the position score halved, the context bonus and the sentiment
bonus. -/
def mentionProminence (m : MentionIn) : ℚ :=
  match m.firstPos with
  | none => 0
  | some pos =>
      let positionScore : ℚ := max 0 (1 - (pos : ℚ) / (max m.textLen 1 : ℕ))
      let contextBonus : ℚ :=
        if mentionContext m = "recommended" then 0.3
        else if mentionContext m = "top_mentioned" then 0.25
        else if mentionContext m = "compared" then 0.1
        else 0
      let sentimentBonus : ℚ :=
        if m.negHits < m.posHits then 0.2
        else if m.posHits < m.negHits then -0.2
        else 0
      min 1 (max 0 (positionScore * 0.5 + contextBonus + sentimentBonus))

/-- One probe's outcome as `_fire_probe` (ai_visibility.py lines 367-409)
produces it: whether `_match_brand` found the brand in the combined
responses, and the mention-quality features of that text. -/
structure ProbeIn where
  found : Bool
  quality : MentionIn

/-- The score of one probe (ai_visibility.py lines 456-460): a flat 60% of
`max_per_probe` when mentioned plus 40% scaled by prominence, 0 otherwise. -/
def probeScore (maxPerProbe : ℚ) (p : ProbeIn) : ℚ :=
  if p.found then
    maxPerProbe * 0.6 + maxPerProbe * 0.4 * mentionProminence p.quality
  else 0

/-- Input of `score_ai_visibility`: crawl-ok and the probe outcomes (one
per generated probe prompt; generation always yields at least the five
fallback templates, but no theorem depends on that). -/
structure AiVisInput where
  ok : Bool
  probes : List ProbeIn

/-- `score_ai_visibility` (ai_visibility.py lines 412-480):
(score, findings); `max_per_probe = 100 / max(probe_count, 1)`. -/
def score_ai_visibility (a : AiVisInput) : ℚ × List String :=
  if !a.ok then (0, [])
  else
    let maxPerProbe : ℚ := 100 / (max a.probes.length 1 : ℕ)
    let score := (a.probes.map (probeScore maxPerProbe)).sum
    let mentions := (a.probes.filter (fun p => p.found)).length
    let finds : List String := if mentions = 0 then ["brand_not_in_ai"] else []
    (safe_score score, finds)

/-! ## Crawler (crawler.py)

The environment (the network) is a function from attempt index to the
outcome of that attempt's `requests.get` call.  The embedding records the
status code, the error string, the number of attempts made, the sleeps
performed (`time.sleep` arguments, in seconds) and the user-agent pool
indices used (`attempt % len(USER_AGENTS)`, pool size 3); the HTML payload
and the wall-clock `load_time` are not modelled. -/

/-- The outcome of one `requests.get` call. -/
inductive Outcome : Type
  | timeout
  | connError (msg : String)
  | reqError (msg : String)
  | http (status : ℕ)
deriving DecidableEq

/-- `MAX_RETRIES` (crawler.py line 21). -/
def MAX_RETRIES : ℕ := 2

/-- The statuses retried on (crawler.py line 79). -/
def RETRY_STATUSES : List ℕ := [429, 500, 502, 503, 504]

/-- What the embedding records of `crawl_page`'s run. -/
structure CrawlTrace where
  statusCode : ℕ
  error : String
  attempts : ℕ
  sleeps : List ℚ
  uaIndices : List ℕ
deriving DecidableEq

/-- The loop-carried state of `crawl_page`. -/
structure CrawlSt where
  lastError : String
  statusCode : ℕ
  sleeps : List ℚ
  uaIndices : List ℕ
deriving DecidableEq

/-- A loop iteration either finishes with a trace or continues. -/
inductive CrawlStepRes : Type
  | done (t : CrawlTrace)
  | cont (s : CrawlSt)
deriving DecidableEq

/-- One iteration of the retry loop (crawler.py lines 48-103) at index
`attempt`: HTTP 200 returns; a retryable status records `"HTTP <s>"`, the
status code, and sleeps `2*(attempt+1)` (2s, 4s, 6s); any other status is
terminal with the error recorded; a timeout or connection error sleeps a
fixed 1s and retries; any other request exception breaks the loop with its
message as the error. -/
def crawlStep (env : ℕ → Outcome) (attempt : ℕ) (s : CrawlSt) : CrawlStepRes :=
  let uas := s.uaIndices ++ [attempt % 3]
  match env attempt with
  | .http status =>
      if status = 200 then .done ⟨200, "", attempt + 1, s.sleeps, uas⟩
      else if status ∈ RETRY_STATUSES then
        .cont ⟨"HTTP " ++ toString status, status,
               s.sleeps ++ [((2 * (attempt + 1) : ℕ) : ℚ)], uas⟩
      else .done ⟨status, "HTTP " ++ toString status, attempt + 1, s.sleeps, uas⟩
  | .timeout => .cont ⟨"Request timed out", s.statusCode, s.sleeps ++ [1], uas⟩
  | .connError msg =>
      .cont ⟨"Connection error: " ++ msg, s.statusCode, s.sleeps ++ [1], uas⟩
  | .reqError msg => .done ⟨s.statusCode, msg, attempt + 1, s.sleeps, uas⟩

/-- `crawl_page` (crawler.py lines 41-107): the
`for attempt in range(MAX_RETRIES + 1)` loop (3 iterations), falling
through to `result.error = last_error` when every attempt was consumed. -/
def crawl_page (env : ℕ → Outcome) : CrawlTrace :=
  match crawlStep env 0 ⟨"", 0, [], []⟩ with
  | .done t => t
  | .cont s1 =>
      match crawlStep env 1 s1 with
      | .done t => t
      | .cont s2 =>
          match crawlStep env 2 s2 with
          | .done t => t
          | .cont s3 => ⟨s3.statusCode, s3.lastError, 3, s3.sleeps, s3.uaIndices⟩

/-! ## Recommendation engine (recommendations.py) -/

/-- One entry of `RECOMMENDATION_RULES`: its pillar, priority, title and
category.  The `description`, `action` and `impact_estimate` fields are
carried verbatim by the code (copied into the returned dict, never read or
branched on), so they are elided from the model; two returned entries are
equal exactly when they copy the same rule, which this model preserves. -/
structure Rule where
  pillar : String
  priority : String
  title : String
  category : String
deriving DecidableEq

/-- `RECOMMENDATION_RULES` (recommendations.py lines 5-523). -/
def RECOMMENDATION_RULES : List (String × Rule) :=
  [ ("no_h1", ⟨"content", "critical", "Add an H1 Tag", "content"⟩),
    ("multiple_h1", ⟨"content", "high", "Use Only One H1 Tag", "content"⟩),
    ("broken_heading_hierarchy", ⟨"content", "high", "Fix Heading Hierarchy", "content"⟩),
    ("no_faq_section", ⟨"content", "high", "Add an FAQ Section", "content"⟩),
    ("no_lists", ⟨"content", "medium", "Add Structured Lists", "content"⟩),
    ("no_answer_first", ⟨"content", "high", "Use Answer-First Format", "content"⟩),
    ("few_internal_links", ⟨"content", "medium", "Add More Internal Links", "content"⟩),
    ("no_citations",
     ⟨"content", "critical", "Add Authoritative Citations (Research: +40% Visibility)", "content"⟩),
    ("no_statistics",
     ⟨"content", "critical", "Add Statistics and Data Points (Research: +37% Visibility)", "content"⟩),
    ("no_expert_quotes",
     ⟨"content", "high", "Add Expert Quotes with Attribution (Research: +30% Visibility)", "content"⟩),
    ("weak_authoritative_tone",
     ⟨"content", "high", "Strengthen Authoritative Tone (Research: +25% Visibility)", "content"⟩),
    ("poor_readability",
     ⟨"content", "medium", "Improve Readability (Research: +20% Visibility)", "content"⟩),
    ("no_technical_terms",
     ⟨"content", "medium", "Include Domain-Specific Terminology (Research: +18% Visibility)", "content"⟩),
    ("low_vocabulary_diversity",
     ⟨"content", "medium", "Increase Vocabulary Diversity (Research: +15% Visibility)", "content"⟩),
    ("low_word_count", ⟨"content", "high", "Expand Content Length", "content"⟩),
    ("poor_paragraph_structure", ⟨"content", "medium", "Improve Paragraph Structure", "content"⟩),
    ("keyword_stuffing",
     ⟨"content", "critical", "Remove Keyword Stuffing (Research: -10% Visibility Penalty)", "content"⟩),
    ("no_jsonld", ⟨"schema", "critical", "Add JSON-LD Structured Data", "schema"⟩),
    ("no_faqpage_schema", ⟨"schema", "high", "Add FAQPage Schema (+40% AI Visibility)", "schema"⟩),
    ("no_article_schema", ⟨"schema", "high", "Add Article Schema", "schema"⟩),
    ("no_organization_schema", ⟨"schema", "high", "Add Organization Schema", "schema"⟩),
    ("invalid_jsonld_structure", ⟨"schema", "medium", "Fix JSON-LD Structure", "schema"⟩),
    ("incomplete_article_schema", ⟨"schema", "high", "Complete Article Schema Properties", "schema"⟩),
    ("incomplete_organization_schema",
     ⟨"schema", "high", "Complete Organization Schema Properties", "schema"⟩),
    ("incomplete_faqpage_schema", ⟨"schema", "high", "Complete FAQPage Schema Properties", "schema"⟩),
    ("incomplete_product_schema", ⟨"schema", "medium", "Complete Product Schema Properties", "schema"⟩),
    ("incomplete_blogposting_schema",
     ⟨"schema", "high", "Complete BlogPosting Schema Properties", "schema"⟩),
    ("incomplete_newsarticle_schema",
     ⟨"schema", "high", "Complete NewsArticle Schema Properties", "schema"⟩),
    ("incomplete_howto_schema", ⟨"schema", "medium", "Complete HowTo Schema Properties", "schema"⟩),
    ("no_author", ⟨"eeat", "high", "Add Author Attribution", "eeat"⟩),
    ("no_author_bio", ⟨"eeat", "medium", "Add Author Bio with Credentials", "eeat"⟩),
    ("no_publish_date", ⟨"eeat", "medium", "Add Publish Date", "eeat"⟩),
    ("no_updated_date", ⟨"eeat", "medium", "Add Last Updated Date", "eeat"⟩),
    ("few_external_citations", ⟨"eeat", "high", "Add External Citations", "eeat"⟩),
    ("no_trust_links", ⟨"eeat", "high", "Add Authoritative Source Links", "eeat"⟩),
    ("low_source_diversity", ⟨"eeat", "medium", "Diversify External Sources", "eeat"⟩),
    ("no_about_page", ⟨"eeat", "high", "Add About Page Link", "eeat"⟩),
    ("no_first_hand_experience", ⟨"eeat", "high", "Add First-Hand Experience Signals", "eeat"⟩),
    ("no_expertise_indicators", ⟨"eeat", "medium", "Demonstrate Deeper Expertise", "eeat"⟩),
    ("low_authority", ⟨"eeat", "high", "Build Content Authority", "eeat"⟩),
    ("low_trust_signals", ⟨"eeat", "high", "Improve Trustworthiness Signals", "eeat"⟩),
    ("no_llms_txt", ⟨"technical", "high", "Create llms.txt File", "technical"⟩),
    ("ai_bots_blocked", ⟨"technical", "critical", "Unblock AI Crawlers in robots.txt", "technical"⟩),
    ("no_sitemap", ⟨"technical", "medium", "Add sitemap.xml", "technical"⟩),
    ("meta_noindex", ⟨"technical", "critical", "Remove noindex Meta Tag", "technical"⟩),
    ("no_https", ⟨"technical", "high", "Enable HTTPS", "technical"⟩),
    ("slow_load_time", ⟨"technical", "medium", "Improve Page Load Speed", "technical"⟩),
    ("no_viewport", ⟨"technical", "medium", "Add Viewport Meta Tag", "technical"⟩),
    ("no_canonical", ⟨"technical", "medium", "Add Canonical Tag", "technical"⟩),
    ("brand_not_in_ai", ⟨"entity", "high", "Improve AI Brand Visibility", "entity"⟩),
    ("no_social_profiles", ⟨"entity", "low", "Link Social Media Profiles", "entity"⟩),
    ("no_wikipedia_presence", ⟨"entity", "medium", "Build Wikipedia Presence", "entity"⟩),
    ("crawl_blocked_403",
     ⟨"technical", "critical", "Your Site Blocks Automated Access (HTTP 403)", "technical"⟩),
    ("crawl_timeout", ⟨"technical", "critical", "Your Site Is Too Slow to Crawl", "technical"⟩) ]

/-- `PRIORITY_ORDER` (recommendations.py line 525), with the `.get(_, 99)`
default of the sort key. -/
def priorityRank (p : String) : ℕ :=
  if p = "critical" then 0 else if p = "high" then 1
  else if p = "medium" then 2 else if p = "low" then 3 else 99

/-- `IMPACT_SCORES` (recommendations.py lines 529-591). -/
def IMPACT_SCORES : List (String × ℕ) :=
  [ ("no_citations", 95), ("no_statistics", 90), ("keyword_stuffing", 88),
    ("no_expert_quotes", 75), ("weak_authoritative_tone", 70),
    ("poor_readability", 60), ("no_technical_terms", 50),
    ("low_vocabulary_diversity", 45), ("no_faq_section", 72),
    ("no_answer_first", 65), ("low_word_count", 55), ("no_h1", 40),
    ("multiple_h1", 20), ("broken_heading_hierarchy", 25), ("no_lists", 15),
    ("poor_paragraph_structure", 15), ("few_internal_links", 15),
    ("no_jsonld", 85), ("no_faqpage_schema", 70), ("no_article_schema", 55),
    ("no_organization_schema", 55), ("invalid_jsonld_structure", 40),
    ("incomplete_article_schema", 30), ("incomplete_organization_schema", 30),
    ("incomplete_faqpage_schema", 30), ("incomplete_product_schema", 20),
    ("incomplete_blogposting_schema", 25), ("incomplete_newsarticle_schema", 25),
    ("incomplete_howto_schema", 20), ("no_citations_eeat", 80),
    ("few_external_citations", 75), ("no_trust_links", 70),
    ("no_first_hand_experience", 68), ("low_authority", 65),
    ("low_trust_signals", 65), ("no_about_page", 50), ("no_author", 60),
    ("no_author_bio", 40), ("no_expertise_indicators", 45),
    ("low_source_diversity", 35), ("no_publish_date", 20),
    ("no_updated_date", 15), ("ai_bots_blocked", 92), ("meta_noindex", 90),
    ("no_llms_txt", 60), ("no_https", 55), ("slow_load_time", 45),
    ("no_sitemap", 35), ("no_viewport", 20), ("no_canonical", 20),
    ("brand_not_in_ai", 65), ("no_wikipedia_presence", 50),
    ("no_social_profiles", 15), ("crawl_blocked_403", 98),
    ("crawl_timeout", 96) ]

/-- `MAX_RECOMMENDATIONS` (recommendations.py line 593). -/
def MAX_RECOMMENDATIONS : ℕ := 10

/-- The sort key comparison of `generate_recommendations`
(recommendations.py lines 615-617): lexicographic on
`(-impact_score, priority rank)`; non-strict, so the stable merge sort
preserves Python `list.sort`'s stable order. -/
def recLe (a b : Rule × ℕ) : Bool :=
  b.2 < a.2 || (a.2 = b.2 && priorityRank a.1.priority ≤ priorityRank b.1.priority)

/-- Stable insertion into a sorted list: `x` goes before the first element
it compares `le` to, so ties keep original order. -/
def insertSorted (le : α → α → Bool) (x : α) : List α → List α
  | [] => [x]
  | y :: ys => if le x y then x :: y :: ys else y :: insertSorted le x ys

/-- A stable sort.  Python's `list.sort` is stable, and a stable sort's
output is uniquely determined by the comparison, so this insertion sort
computes exactly what `candidates.sort(key=...)` does under `recLe`. -/
def stableSort (le : α → α → Bool) : List α → List α
  | [] => []
  | x :: xs => insertSorted le x (stableSort le xs)

/-- `generate_recommendations` (recommendations.py lines 596-626): input is
the pillar-name → details map restricted to what the function reads — each
pillar's `findings` list, in the dict's insertion order.  A finding with no
rule is dropped; candidates are sorted by descending impact (priority rank
as tiebreaker) and the first 10 returned, the internal impact score
stripped. -/
def generate_recommendations (pillarDetails : List (String × List String)) :
    List Rule :=
  let candidates := pillarDetails.flatMap (fun pd =>
    pd.2.filterMap (fun finding =>
      (RECOMMENDATION_RULES.lookup finding).map
        (fun rule => (rule, (IMPACT_SCORES.lookup finding).getD 10))))
  ((stableSort recLe candidates).take MAX_RECOMMENDATIONS).map Prod.fst

/-! ## Orchestration (tasks.py) -/

/-- The parameter list of `score_eeat` (eeat.py line 344):
`def score_eeat(crawl: CrawlResult)`. -/
def score_eeat_params : List String := ["crawl"]

/-- The keyword arguments of the call `score_eeat(crawl, skip_gemini=True)`
in `_score_competitor_static` (tasks.py line 42). -/
def competitor_eeat_kwargs : List String := ["skip_gemini"]

/-- Python call semantics: a keyword argument binds only to a parameter of
that name; an unmatched keyword raises `TypeError`. -/
def kwargsBind (params kwargs : List String) : Bool :=
  kwargs.all (fun k => params.contains k)

/-- The page-score record `_score_competitor_static` builds on success. -/
structure CompetitorPage where
  contentScore : ℚ
  schemaScore : ℚ
  eeatScore : ℚ
  technicalScore : ℚ
  composite : ℚ
deriving DecidableEq

/-- Input of `_score_competitor_static`: the competitor crawl and the
feature records its pillar calls would read. -/
structure CompetitorInput where
  ok : Bool
  content : ContentInput
  schema : SchemaInput
  eeat : EeatInput
  technical : TechnicalInput

/-- `_score_competitor_static` (tasks.py lines 33-62).  A failed crawl
returns `(None, 0.0)`.  Otherwise `score_content` and `score_schema` run
(lines 39-40) and then line 42 calls `score_eeat(crawl, skip_gemini=True)`;
`score_eeat` has the single parameter `crawl` (eeat.py line 344), so the
keyword fails to bind and the call raises `TypeError`, modelled as
`.error`.  The `.ok some` branch is what would run if the keyword bound
(E-E-A-T forced to its non-LLM path, then the static composite). -/
def score_competitor_static (inp : CompetitorInput) :
    Except String (Option CompetitorPage × ℚ) :=
  if !inp.ok then .ok (none, 0)
  else
    let contentScore := (score_content inp.content).1
    let schemaScore := (score_schema inp.schema).1
    if kwargsBind score_eeat_params competitor_eeat_kwargs then
      let eeatScore := (score_eeat { inp.eeat with gemini := none }).1
      let technicalScore := (score_technical inp.technical).1
      let composite := compute_static_composite contentScore schemaScore
        eeatScore technicalScore
      .ok (some ⟨contentScore, schemaScore, eeatScore, technicalScore, composite⟩,
           composite)
    else .error "TypeError: score_eeat() got an unexpected keyword argument skip_gemini"

/-- What `_run_partial_analysis` (tasks.py lines 65-182) computes of the six
pillar scores when the primary fetch failed: Content/Schema/E-E-A-T are
hard-coded to 0 with an explanatory note, `score_technical` runs on the
failed crawl, and `score_entity` / `score_ai_visibility` are called on the
failed crawl (both of which return 0 at once, entity.py lines 175-176 and
ai_visibility.py lines 414-415).  The composite uses the default industry. -/
structure PartialAnalysisOut where
  contentScore : ℚ
  contentNote : String
  schemaScore : ℚ
  schemaNote : String
  eeatScore : ℚ
  eeatNote : String
  technicalScore : ℚ
  entityScore : ℚ
  aiVisScore : ℚ
  composite : ℚ
deriving DecidableEq

/-- `_run_partial_analysis`'s scoring (tasks.py lines 77-136); `err` is
`crawl.error`, and the entity / AI-visibility inputs carry `ok = false`
because they receive the same failed crawl. -/
def run_partial_analysis (err : String) (techIn : TechnicalInput)
    (entIn : EntityInput) (aiIn : AiVisInput) : PartialAnalysisOut :=
  let t := (score_technical techIn).1
  let en := (score_entity entIn).1
  let ai := (score_ai_visibility aiIn).1
  { contentScore := 0,
    contentNote := "Page content could not be accessed: " ++ err,
    schemaScore := 0,
    schemaNote := "Schema markup could not be checked: " ++ err,
    eeatScore := 0,
    eeatNote := "E-E-A-T signals could not be analyzed: " ++ err,
    technicalScore := t, entityScore := en, aiVisScore := ai,
    composite := compute_composite 0 0 0 t en ai "default" }

/-! ## Concrete inputs and helpers used by the claim theorems -/

/-- The object-level fold body of the quality loop. -/
def qualityObjStep (st : QState) (o : SObj) : QState :=
  o.objTypes.foldl (qualityStep o) st

/-- The C7 counterexample page: a single JSON-LD block
`{"@context": ..., "@type": "Organization", "name": ...}` — a recognized
(identity) type missing its required `url` property, with no FAQPage and no
Article-family type anywhere on the page. -/
def orgMissingUrl : SchemaInput :=
  ⟨true, [.mk (.str "Organization") ["name"] true false .nil]⟩

/-- A page whose only JSON-LD block is `{"@context": ..., "@type":
"WebSite"}`: the recognized non-identity type WebSite with both required
properties (`name`, `url`) missing. -/
def websiteOnly : SchemaInput :=
  ⟨true, [.mk (.str "WebSite") [] true false .nil]⟩

/-- An entity-scorer input on the LLM path with a Wikipedia hit, two social
profiles, but no knowledge-panel verdict: its only finding is
`brand_not_in_ai` (entity.py line 212). -/
def entityLlmNoKp : EntityInput :=
  { ok := true, brandName := "Example", hasWiki := true, useLlm := true,
    wellKnown := false, mentionScore := 8, socialCount := 2, domainLabelLen := 7,
    static_ := ⟨0, [], 0, 0⟩ }

/-- An AI-visibility input whose five probes all miss the brand: its only
finding is `brand_not_in_ai` (ai_visibility.py line 476). -/
def aiVisNoMentions : AiVisInput :=
  ⟨true, List.replicate 5 ⟨false, ⟨0, none, 0, 0, false, false, false⟩⟩⟩

/-- Which outcomes the loop retries after (timeout, connection error, HTTP
429/500/502/503/504). -/
def Outcome.retryable : Outcome → Bool
  | .timeout => true
  | .connError _ => true
  | .http s => decide (s ∈ RETRY_STATUSES)
  | .reqError _ => false

/-- The sleep the loop performs after attempt `k` (`none` = no sleep):
`2*(k+1)` seconds after a retryable HTTP status, a fixed 1 second after a
timeout or connection error. -/
def sleepOf (k : ℕ) : Outcome → Option ℚ
  | .timeout => some 1
  | .connError _ => some 1
  | .http s => if s ∈ RETRY_STATUSES then some ((2 * (k + 1) : ℕ) : ℚ) else none
  | .reqError _ => none

/-- The `last_error` string an outcome sets. -/
def errOf : Outcome → String
  | .timeout => "Request timed out"
  | .connError m => "Connection error: " ++ m
  | .http s => "HTTP " ++ toString s
  | .reqError m => m

/-- How an outcome updates `result.status_code` (set by every HTTP
response, kept by exceptions). -/
def statusUpd : Outcome → ℕ → ℕ
  | .http s, _ => s
  | _, old => old

/-- The `result.error` of a terminating outcome. -/
def doneErr : Outcome → String
  | .http s => if s = 200 then "" else "HTTP " ++ toString s
  | .reqError m => m
  | o => errOf o

/-- The environment where every attempt times out. -/
def allTimeoutEnv : ℕ → Outcome := fun _ => .timeout

/-- An environment whose first attempt hits HTTP 503 (retryable) and whose
second hits HTTP 404 (terminal). -/
def retryThen404Env : ℕ → Outcome :=
  fun k => if k = 0 then .http 503 else .http 404

/-- The technical features of a failed crawl (no HTML): HTTPS site with
llms.txt and sitemap.xml present, no robots.txt, no load time recorded. -/
def failedTechIn : TechnicalInput :=
  { ok := false, isHttps := true, loadTime := 0, hasLlmsTxt := true,
    robotsLines := [], hasSitemap := true, noindex := false,
    hasViewport := false, hasCanonical := false }

/-- An entity input for a failed crawl: `ok = false` even though every
brand-level signal is favourable — the early return ignores them all. -/
def failedEntityIn : EntityInput :=
  { ok := false, brandName := "Example", hasWiki := true, useLlm := true,
    wellKnown := true, mentionScore := 10, socialCount := 3, domainLabelLen := 7,
    static_ := ⟨3, [], 2, 7⟩ }

/-- An AI-visibility input for a failed crawl: `ok = false` with five
probes that would all have found the brand. -/
def failedAiIn : AiVisInput :=
  ⟨false, List.replicate 5 ⟨true, ⟨1000, some 0, 3, 0, true, false, false⟩⟩⟩

/-- A competitor whose page crawl succeeded, with well-formed feature
records for every pillar. -/
def okCompetitorIn : CompetitorInput :=
  { ok := true,
    content := ⟨true, maxStructureInput, maxGeoInput⟩,
    schema := websiteOnly,
    eeat := ⟨true, ⟨5, 3, 5, true, true, true, true, true, true⟩, none,
            ⟨true, true, 3, 4, true, true, 2⟩⟩,
    technical := ⟨true, true, 1, true, [], true, false, true, true⟩ }

/-! ## Theorems -/

theorem safe_score_nonneg (value max_val : ℚ) : 0 ≤ safe_score value max_val :=
  le_max_left 0 _

theorem safe_score_le (value max_val : ℚ) (h : 0 ≤ max_val) :
    safe_score value max_val ≤ max_val := by
  unfold safe_score
  exact max_le h (min_le_right _ _)

theorem safe_score_mono (a b max_val : ℚ) (h : a ≤ b) :
    safe_score a max_val ≤ safe_score b max_val := by
  unfold safe_score
  exact max_le_max le_rfl (min_le_min h le_rfl)

theorem safe_score_of_le (value max_val : ℚ) (h0 : 0 ≤ value) (h1 : value ≤ max_val) :
    safe_score value max_val = value := by
  unfold safe_score
  rw [min_eq_left h1, max_eq_right h0]

/-- Every profile `get_weights` can return is the default profile or one of
the nine industry entries. -/
lemma get_weights_mem (industry : String) :
    get_weights industry = DEFAULT_WEIGHTS ∨
      get_weights industry ∈ (INDUSTRY_WEIGHTS.map Prod.snd) := by
  unfold get_weights
  rcases h : INDUSTRY_WEIGHTS.find? (fun p => p.1 = industry) with _ | p
  · rw [h]
    exact Or.inl rfl
  · rw [h]
    exact Or.inr (List.mem_map_of_mem Prod.snd (List.mem_of_find?_eq_some h))

lemma weights_nonneg (industry : String) :
    0 ≤ (get_weights industry).content ∧ 0 ≤ (get_weights industry).schema ∧
    0 ≤ (get_weights industry).eeat ∧ 0 ≤ (get_weights industry).technical ∧
    0 ≤ (get_weights industry).entity ∧ 0 ≤ (get_weights industry).ai_visibility := by
  rcases get_weights_mem industry with h | h
  · rw [h]
    refine ⟨by norm_num [DEFAULT_WEIGHTS], by norm_num [DEFAULT_WEIGHTS],
      by norm_num [DEFAULT_WEIGHTS], by norm_num [DEFAULT_WEIGHTS],
      by norm_num [DEFAULT_WEIGHTS], by norm_num [DEFAULT_WEIGHTS]⟩
  · simp only [INDUSTRY_WEIGHTS, List.map, List.mem_cons, List.not_mem_nil, or_false] at h
    rcases h with h | h | h | h | h | h | h | h | h <;> rw [h] <;>
      refine ⟨by norm_num, by norm_num, by norm_num, by norm_num, by norm_num, by norm_num⟩

lemma weights_sum_one (industry : String) :
    (get_weights industry).sum = 1 := by
  rcases get_weights_mem industry with h | h
  · rw [h]; norm_num [Weights.sum, DEFAULT_WEIGHTS]
  · simp only [INDUSTRY_WEIGHTS, List.map, List.mem_cons, List.not_mem_nil, or_false] at h
    rcases h with h | h | h | h | h | h | h | h | h <;> rw [h] <;> norm_num [Weights.sum]

/-- C2 helper: monotonicity of the composite in one coordinate follows from
nonnegative weight and `safe_score` monotonicity. -/
lemma composite_mono_of_nonneg {a b w rest : ℚ} (hw : 0 ≤ w) (hab : a ≤ b) :
    safe_score (a * w + rest) ≤ safe_score (b * w + rest) :=
  safe_score_mono _ _ _ (by nlinarith)

/-- C2: for every industry (the nine profiles and the default used for every
other string), the six pillar weights sum to 1.0 within 1e-9, and
`compute_composite` is monotonic non-decreasing in each pillar score with the
industry and the other five scores held fixed. -/
theorem composite_convex_combination :
    (∀ industry : String,
      |(get_weights industry).sum - 1| ≤ 1 / 1000000000) ∧
    (∀ (industry : String) (c c' s e t en a : ℚ), c ≤ c' →
      compute_composite c s e t en a industry ≤ compute_composite c' s e t en a industry) ∧
    (∀ (industry : String) (c s s' e t en a : ℚ), s ≤ s' →
      compute_composite c s e t en a industry ≤ compute_composite c s' e t en a industry) ∧
    (∀ (industry : String) (c s e e' t en a : ℚ), e ≤ e' →
      compute_composite c s e t en a industry ≤ compute_composite c s e' t en a industry) ∧
    (∀ (industry : String) (c s e t t' en a : ℚ), t ≤ t' →
      compute_composite c s e t en a industry ≤ compute_composite c s e t' en a industry) ∧
    (∀ (industry : String) (c s e t en en' a : ℚ), en ≤ en' →
      compute_composite c s e t en a industry ≤ compute_composite c s e t en' a industry) ∧
    (∀ (industry : String) (c s e t en a a' : ℚ), a ≤ a' →
      compute_composite c s e t en a industry ≤ compute_composite c s e t en a' industry) := by
  obtain h := weights_nonneg
  refine ⟨fun industry => by rw [weights_sum_one]; norm_num,
    fun industry c c' s e t en a hle => ?_,
    fun industry c s s' e t en a hle => ?_,
    fun industry c s e e' t en a hle => ?_,
    fun industry c s e t t' en a hle => ?_,
    fun industry c s e t en en' a hle => ?_,
    fun industry c s e t en a a' hle => ?_⟩ <;>
    · unfold compute_composite
      obtain ⟨h1, h2, h3, h4, h5, h6⟩ := h industry
      apply safe_score_mono
      nlinarith

/-- C2 witness: at industry "health" with concrete scores, the weight sum is
within 1e-9 of 1 and raising the content score from 10 to 20 does not lower
the composite. -/
theorem composite_convex_combination_witness :
    compute_composite 10 50 50 50 50 50 "health" ≤
      compute_composite 20 50 50 50 50 50 "health" :=
  composite_convex_combination.2.1 "health" 10 20 50 50 50 50 50 (by norm_num)

lemma score_structure_bounds (s : StructureInput) :
    0 ≤ (score_structure s).1 ∧ (score_structure s).1 ≤ 35 := by
  unfold score_structure
  dsimp only
  split_ifs <;> norm_num

lemma geoCitePts_bounds (g : GeoInput) : 0 ≤ geoCitePts g ∧ geoCitePts g ≤ 12 := by
  unfold geoCitePts; dsimp only; split_ifs <;> norm_num

lemma geoStatPts_bounds (g : GeoInput) : 0 ≤ geoStatPts g ∧ geoStatPts g ≤ 10 := by
  unfold geoStatPts; split_ifs <;> norm_num

lemma geoQuotePts_bounds (g : GeoInput) : 0 ≤ geoQuotePts g ∧ geoQuotePts g ≤ 8 := by
  unfold geoQuotePts; dsimp only; split_ifs <;> norm_num

lemma geoTonePts_bounds (g : GeoInput) : 0 ≤ geoTonePts g ∧ geoTonePts g ≤ 8 := by
  unfold geoTonePts; dsimp only; split_ifs <;> norm_num

lemma geoReadPts_bounds (g : GeoInput) : 0 ≤ geoReadPts g ∧ geoReadPts g ≤ 7 := by
  unfold geoReadPts; split_ifs <;> norm_num

lemma geoTechPts_bounds (g : GeoInput) : 0 ≤ geoTechPts g ∧ geoTechPts g ≤ 5 := by
  unfold geoTechPts; dsimp only; split_ifs <;> norm_num

lemma geoVocabPts_bounds (g : GeoInput) : 0 ≤ geoVocabPts g ∧ geoVocabPts g ≤ 5 := by
  unfold geoVocabPts; split_ifs <;> norm_num

lemma geoFluencyPts_bounds (g : GeoInput) :
    0 ≤ geoFluencyPts g ∧ geoFluencyPts g ≤ 5 := by
  unfold geoFluencyPts; split_ifs <;> norm_num

lemma geoStuffPts_bounds (g : GeoInput) : -5 ≤ geoStuffPts g ∧ geoStuffPts g ≤ 0 := by
  unfold geoStuffPts; split_ifs <;> norm_num

/-- The GEO section's score never exceeds 60: the nine method maxima sum to
12+10+8+8+7+5+5+5 = 60 (and the stuffing penalty only subtracts). -/
lemma score_geo_quality_le (g : GeoInput) : (score_geo_quality g).1 ≤ 60 := by
  have h1 := geoCitePts_bounds g
  have h2 := geoStatPts_bounds g
  have h3 := geoQuotePts_bounds g
  have h4 := geoTonePts_bounds g
  have h5 := geoReadPts_bounds g
  have h6 := geoTechPts_bounds g
  have h7 := geoVocabPts_bounds g
  have h8 := geoFluencyPts_bounds g
  have h9 := geoStuffPts_bounds g
  unfold score_geo_quality
  dsimp only
  linarith [h1.2, h2.2, h3.2, h4.2, h5.2, h6.2, h7.2, h8.2, h9.2]

lemma score_geo_quality_ge (g : GeoInput) : -5 ≤ (score_geo_quality g).1 := by
  have h1 := geoCitePts_bounds g
  have h2 := geoStatPts_bounds g
  have h3 := geoQuotePts_bounds g
  have h4 := geoTonePts_bounds g
  have h5 := geoReadPts_bounds g
  have h6 := geoTechPts_bounds g
  have h7 := geoVocabPts_bounds g
  have h8 := geoFluencyPts_bounds g
  have h9 := geoStuffPts_bounds g
  unfold score_geo_quality
  dsimp only
  linarith [h1.1, h2.1, h3.1, h4.1, h5.1, h6.1, h7.1, h8.1, h9.1]

lemma score_content_bounds (c : ContentInput) :
    0 ≤ (score_content c).1 ∧ (score_content c).1 ≤ 100 := by
  unfold score_content
  dsimp only
  split_ifs
  · norm_num
  · exact ⟨safe_score_nonneg _ _, safe_score_le _ _ (by norm_num)⟩

lemma score_technical_bounds (t : TechnicalInput) :
    0 ≤ (score_technical t).1 ∧ (score_technical t).1 ≤ 100 :=
  ⟨safe_score_nonneg _ _, safe_score_le _ _ (by norm_num)⟩

lemma score_eeat_bounds (e : EeatInput) :
    0 ≤ (score_eeat e).1 ∧ (score_eeat e).1 ≤ 100 := by
  unfold score_eeat
  rcases hok : (!e.ok) with _ | _
  · rcases hg : e.gemini with _ | g <;>
      · simp only [hok, hg, Bool.false_eq_true, if_false]
        exact ⟨safe_score_nonneg _ _, safe_score_le _ _ (by norm_num)⟩
  · simp [hok]

lemma score_entity_bounds (e : EntityInput) :
    0 ≤ (score_entity e).1 ∧ (score_entity e).1 ≤ 100 := by
  unfold score_entity
  rcases hok : (!e.ok) with _ | _
  · rcases hllm : e.useLlm with _ | _ <;>
      · simp only [hok, hllm, Bool.false_eq_true, if_false, if_true]
        exact ⟨safe_score_nonneg _ _, safe_score_le _ _ (by norm_num)⟩
  · simp [hok]

lemma mentionProminence_bounds (m : MentionIn) :
    0 ≤ mentionProminence m ∧ mentionProminence m ≤ 1 := by
  unfold mentionProminence
  rcases h : m.firstPos with _ | pos <;> simp only [h]
  · norm_num
  · exact ⟨le_min (by norm_num) (le_max_left _ _), min_le_left _ _⟩

lemma score_ai_visibility_bounds (a : AiVisInput) :
    0 ≤ (score_ai_visibility a).1 ∧ (score_ai_visibility a).1 ≤ 100 := by
  unfold score_ai_visibility
  rcases hok : (!a.ok) with _ | _
  · simp only [hok, Bool.false_eq_true, if_false]
    exact ⟨safe_score_nonneg _ _, safe_score_le _ _ (by norm_num)⟩
  · simp [hok]

lemma safe_score_le_of_le (value m : ℚ) (h0 : 0 ≤ m) (h : value ≤ m) :
    safe_score value ≤ m := by
  unfold safe_score
  exact max_le h0 ((min_le_left _ _).trans h)

lemma le_safe_score (value m : ℚ) (hm : m ≤ 100) (h : m ≤ value) :
    m ≤ safe_score value := by
  unfold safe_score
  exact le_trans (le_min h hm) (le_max_right _ _)

lemma completeness_nonneg (o : SObj) (t : String) : 0 ≤ completeness o t := by
  unfold completeness
  have h1 : (0 : ℚ) ≤ if ((SCHEMA_REQUIRED_PROPS.lookup t).getD []).length ≠ 0 then
      ((((SCHEMA_REQUIRED_PROPS.lookup t).getD []).filter
        (fun p => o.present.contains p)).length : ℚ) /
        (((SCHEMA_REQUIRED_PROPS.lookup t).getD []).length : ℚ) else 1 := by
    split_ifs <;> positivity
  have h2 : (0 : ℚ) ≤ if ((SCHEMA_RECOMMENDED_PROPS.lookup t).getD []).length ≠ 0 then
      ((((SCHEMA_RECOMMENDED_PROPS.lookup t).getD []).filter
        (fun p => o.present.contains p)).length : ℚ) /
        (((SCHEMA_RECOMMENDED_PROPS.lookup t).getD []).length : ℚ) else 1 := by
    split_ifs <;> positivity
  dsimp only
  nlinarith

lemma schemaIdentityPts_nonneg (allTypes : List String) (allObjs : List SObj) :
    0 ≤ schemaIdentityPts allTypes allObjs := by
  unfold schemaIdentityPts
  rcases h1 : identityTypes.find? (fun t => allTypes.contains t) with _ | t
  · show (0 : ℚ) ≤ 0
    exact le_rfl
  · show (0 : ℚ) ≤ (match allObjs.find? (fun o => o.objTypes.contains t) with
      | none => (0 : ℚ)
      | some o => 15 * completeness o t)
    rcases h2 : allObjs.find? (fun o => o.objTypes.contains t) with _ | o
    · rw [h2]
    · rw [h2]
      show (0 : ℚ) ≤ 15 * completeness o t
      nlinarith [completeness_nonneg o t]

lemma qualityStep_qsum_mono (o : SObj) (st : QState) (t : String) :
    st.qsum ≤ (qualityStep o st t).qsum := by
  unfold qualityStep
  split_ifs <;> simp <;> exact completeness_nonneg o t

lemma qualityFold_qsum_mono (ts : List String) (o : SObj) (st : QState) :
    st.qsum ≤ (ts.foldl (qualityStep o) st).qsum := by
  induction ts generalizing st with
  | nil => exact le_rfl
  | cons t rest ih => exact (qualityStep_qsum_mono o st t).trans (ih _)

lemma qualityLoop_qsum_nonneg (objs : List SObj) :
    0 ≤ (qualityLoop objs).qsum := by
  unfold qualityLoop
  have : ∀ (l : List SObj) (st : QState), st.qsum ≤
      (l.foldl (fun s o => o.objTypes.foldl (qualityStep o) s) st).qsum := by
    intro l
    induction l with
    | nil => exact fun st => le_rfl
    | cons o rest ih =>
        exact fun st => (qualityFold_qsum_mono o.objTypes o st).trans (ih _)
  exact this objs ⟨[], 0, 0, []⟩

lemma schemaQualityPts_nonneg (objs : List SObj) :
    0 ≤ schemaQualityPts (qualityLoop objs) := by
  unfold schemaQualityPts
  split_ifs with h
  · have h1 := qualityLoop_qsum_nonneg objs
    have h2 : (0 : ℚ) ≤ ((qualityLoop objs).entries : ℚ) := by positivity
    have h3 : (0 : ℚ) ≤ (qualityLoop objs).qsum / ((qualityLoop objs).entries : ℚ) :=
      div_nonneg h1 h2
    have h4 : (0 : ℚ) ≤ min 1 (0.4 + ((qualityLoop objs).entries : ℚ) * 0.2) := by
      refine le_min (by norm_num) (by positivity)
    nlinarith
  · exact le_rfl

lemma schemaVarietyPts_ge_two (n : ℕ) : 2 ≤ schemaVarietyPts n := by
  unfold schemaVarietyPts
  split_ifs <;> norm_num

lemma score_schema_bounds (s : SchemaInput) :
    0 ≤ (score_schema s).1 ∧ (score_schema s).1 ≤ 100 := by
  unfold score_schema
  dsimp only
  split_ifs <;>
    first
    | exact ⟨safe_score_nonneg _ _, safe_score_le _ _ (by norm_num)⟩
    | norm_num

/-- C1: each of the six pillar scorers (Content, Schema, E-E-A-T,
Technical, Entity, AI-Visibility) returns a score in [0, 100] for every
input, empty and adversarial feature combinations included: every return
path yields either a literal 0 or a value passed through the `safe_score`
clamp. -/
theorem pillar_scores_in_range :
    (∀ c : ContentInput, 0 ≤ (score_content c).1 ∧ (score_content c).1 ≤ 100) ∧
    (∀ s : SchemaInput, 0 ≤ (score_schema s).1 ∧ (score_schema s).1 ≤ 100) ∧
    (∀ e : EeatInput, 0 ≤ (score_eeat e).1 ∧ (score_eeat e).1 ≤ 100) ∧
    (∀ t : TechnicalInput, 0 ≤ (score_technical t).1 ∧ (score_technical t).1 ≤ 100) ∧
    (∀ e : EntityInput, 0 ≤ (score_entity e).1 ∧ (score_entity e).1 ≤ 100) ∧
    (∀ a : AiVisInput, 0 ≤ (score_ai_visibility a).1 ∧ (score_ai_visibility a).1 ≤ 100) :=
  ⟨score_content_bounds, score_schema_bounds, score_eeat_bounds,
   score_technical_bounds, score_entity_bounds, score_ai_visibility_bounds⟩

/-- C6 (code bug): the docstring and section header of `score_content` and
`_score_geo_quality` state a 35 + 65 = 100 split, but the GEO method maxima
sum to 12+10+8+8+7+5+5+5 = 60: the GEO score never exceeds 60 (attained),
the structure section's 35 is attained, and the total content score never
exceeds 95 — the stated 65 and the perfect 100 are unattainable. -/
theorem content_geo_max_is_sixty :
    (∀ g : GeoInput, (score_geo_quality g).1 ≤ 60) ∧
    (score_geo_quality maxGeoInput).1 = 60 ∧
    (score_structure maxStructureInput).1 = 35 ∧
    (∀ c : ContentInput, (score_content c).1 ≤ 95) := by
  refine ⟨score_geo_quality_le, ?_, ?_, ?_⟩
  · norm_num [score_geo_quality, maxGeoInput, geoCitePts, geoStatPts, geoQuotePts,
      geoTonePts, geoReadPts, geoTechPts, geoVocabPts, geoFluencyPts, geoStuffPts,
      geoTtr, geoAvgPara, geoStuffingRatio, List.cons_ne_nil]
  · norm_num [score_structure, maxStructureInput, StructureInput.headings, hierarchyOk,
      List.cons_ne_nil]
  · intro c
    unfold score_content
    dsimp only
    split_ifs
    · norm_num
    · exact safe_score_le_of_le _ _ (by norm_num)
        (by linarith [(score_structure_bounds c.structure_).2,
          score_geo_quality_le c.geo])

/-- C10: when the crawl succeeded and `_extract_jsonld` returned at least
one object, the schema score is at least 17 — 15 for JSON-LD presence plus
the variety bonus, which is never below 2, and no other term is negative. -/
theorem schema_score_jsonld_floor (s : SchemaInput)
    (hok : s.ok = true) (hne : s.schemas ≠ []) :
    17 ≤ (score_schema s).1 := by
  unfold score_schema
  rw [hok]
  simp only [Bool.not_true, Bool.false_eq_true, if_false,
    List.isEmpty_iff, hne, if_neg (by exact hne)]
  refine le_safe_score _ _ (by norm_num) ?_
  have h1 : (0 : ℚ) ≤ if s.schemas.all (fun o => o.hasContext || o.hasGraphKey)
      then (5 : ℚ) else 0 := by split_ifs <;> norm_num
  have h2 : (0 : ℚ) ≤ if (schemaAllTypes s).any (fun t => identityTypes.contains t)
      then schemaIdentityPts (schemaAllTypes s) (schemaAllObjects s) else 0 := by
    split_ifs
    · exact schemaIdentityPts_nonneg _ _
    · exact le_rfl
  have h3 := schemaQualityPts_nonneg (schemaAllObjects s)
  have h4 := schemaVarietyPts_ge_two (schemaAllTypes s).length
  linarith

/-- C10 witness: a single JSON-LD object of unknown type with `@context`
scores 15 + 5 + 0 + 0 + 2 = 22 ≥ 17. -/
theorem schema_score_jsonld_floor_witness :
    17 ≤ (score_schema ⟨true, [.mk (.str "Thing") [] true false .nil]⟩).1 :=
  schema_score_jsonld_floor ⟨true, [.mk (.str "Thing") [] true false .nil]⟩
    rfl (by simp)

lemma qualityStep_finds_mono {o : SObj} {st : QState} {t f : String}
    (h : f ∈ st.finds) : f ∈ (qualityStep o st t).finds := by
  unfold qualityStep
  split_ifs <;> simp [h]

lemma qualityFoldTypes_finds_mono (ts : List String) (o : SObj) (st : QState)
    {f : String} (h : f ∈ st.finds) : f ∈ (ts.foldl (qualityStep o) st).finds := by
  induction ts generalizing st with
  | nil => exact h
  | cons t rest ih => exact ih _ (qualityStep_finds_mono h)

lemma qualityFoldObjs_finds_mono (objs : List SObj) (st : QState) {f : String}
    (h : f ∈ st.finds) : f ∈ (objs.foldl qualityObjStep st).finds := by
  induction objs generalizing st with
  | nil => exact h
  | cons o rest ih => exact ih _ (qualityFoldTypes_finds_mono o.objTypes o st h)

lemma qualityStep_scored_sub {o : SObj} {st : QState} {t x : String}
    (h : x ∈ (qualityStep o st t).scored) : x ∈ st.scored ∨ x = t := by
  unfold qualityStep at h
  split_ifs at h <;>
    first
    | exact Or.inl h
    | simpa using (List.mem_append.mp h).imp id List.mem_singleton.mp

lemma qualityFoldTypes_scored_sub (ts : List String) (o : SObj) (st : QState)
    {x : String} (h : x ∈ (ts.foldl (qualityStep o) st).scored) :
    x ∈ st.scored ∨ x ∈ ts := by
  induction ts generalizing st with
  | nil => exact Or.inl h
  | cons t rest ih =>
      rcases ih _ h with h' | h'
      · rcases qualityStep_scored_sub h' with h'' | h''
        · exact Or.inl h''
        · exact Or.inr (h'' ▸ List.mem_cons_self t rest)
      · exact Or.inr (List.mem_cons_of_mem t h')

lemma qualityStep_emits {o : SObj} {st : QState} {T : String}
    (hns : T ∉ st.scored) (hni : T ∉ identityTypes)
    (hreq : (SCHEMA_REQUIRED_PROPS.lookup T).isSome)
    (hmiss : requiredMissing o T ≠ []) :
    incompleteKey T ∈ (qualityStep o st T).finds := by
  obtain ⟨v, hv⟩ := Option.isSome_iff_exists.mp hreq
  unfold qualityStep
  rw [if_neg hns, if_neg hni, if_neg (by simp [hv])]
  simp [hmiss]

lemma qualityFoldTypes_emits (ts : List String) (o : SObj) (st : QState)
    {T : String} (hmem : T ∈ ts) (hns : T ∉ st.scored) (hni : T ∉ identityTypes)
    (hreq : (SCHEMA_REQUIRED_PROPS.lookup T).isSome)
    (hmiss : requiredMissing o T ≠ []) :
    incompleteKey T ∈ (ts.foldl (qualityStep o) st).finds := by
  induction ts generalizing st with
  | nil => cases hmem
  | cons t rest ih =>
      by_cases hEq : t = T
      · subst hEq
        exact qualityFoldTypes_finds_mono rest o _ (qualityStep_emits hns hni hreq hmiss)
      · have hmem' : T ∈ rest := by
          rcases List.mem_cons.mp hmem with h | h
          · exact absurd h.symm hEq
          · exact h
        refine ih _ hmem' ?_
        intro hcon
        rcases qualityStep_scored_sub hcon with h | h
        · exact hns h
        · exact hEq h.symm

lemma qualityFoldObjs_emits (objs : List SObj) (st : QState)
    {T : String} {o : SObj}
    (hfind : objs.find? (fun o' => decide (T ∈ o'.objTypes)) = some o)
    (hns : T ∉ st.scored) (hni : T ∉ identityTypes)
    (hreq : (SCHEMA_REQUIRED_PROPS.lookup T).isSome)
    (hmiss : requiredMissing o T ≠ []) :
    incompleteKey T ∈ (objs.foldl qualityObjStep st).finds := by
  induction objs generalizing st with
  | nil => simp at hfind
  | cons x rest ih =>
      by_cases hx : T ∈ x.objTypes
      · have : x = o := by
          rw [List.find?_cons_of_pos _ (by simpa using hx)] at hfind
          exact (Option.some.injEq _ _).mp hfind
        subst this
        exact qualityFoldObjs_finds_mono rest _
          (qualityFoldTypes_emits x.objTypes x st hx hns hni hreq hmiss)
      · rw [List.find?_cons_of_neg _ (by simpa using hx)] at hfind
        refine ih _ hfind ?_
        intro hcon
        rcases qualityFoldTypes_scored_sub x.objTypes x st hcon with h | h
        · exact hns h
        · exact hx h

lemma qualityStep_finds_shape {o : SObj} {st : QState} {t f : String}
    (h : f ∈ (qualityStep o st t).finds) :
    f ∈ st.finds ∨ ∃ t', f = incompleteKey t' := by
  unfold qualityStep at h
  split_ifs at h
  · exact Or.inl h
  · exact Or.inl h
  · exact Or.inl h
  · rcases List.mem_append.mp h with h' | h'
    · exact Or.inl h'
    · exact Or.inr ⟨t, by simpa using h'⟩
  · rcases List.mem_append.mp h with h' | h'
    · exact Or.inl h'
    · simp at h'

lemma qualityFoldTypes_finds_shape (ts : List String) (o : SObj) (st : QState)
    {f : String} (h : f ∈ (ts.foldl (qualityStep o) st).finds) :
    f ∈ st.finds ∨ ∃ t', f = incompleteKey t' := by
  induction ts generalizing st with
  | nil => exact Or.inl h
  | cons t rest ih =>
      rcases ih _ h with h' | h'
      · exact qualityStep_finds_shape h'
      · exact Or.inr h'

lemma qualityFoldObjs_finds_shape (objs : List SObj) (st : QState)
    {f : String} (h : f ∈ (objs.foldl qualityObjStep st).finds) :
    f ∈ st.finds ∨ ∃ t', f = incompleteKey t' := by
  induction objs generalizing st with
  | nil => exact Or.inl h
  | cons o rest ih =>
      rcases ih _ h with h' | h'
      · exact qualityFoldTypes_finds_shape o.objTypes o st h'
      · exact Or.inr h'

lemma incompleteKey_head (t : String) : (incompleteKey t).data.head? = some 'i' := by
  unfold incompleteKey
  rw [String.data_append, String.data_append,
    (by decide : ("incomplete_" : String).data = 'i' :: "ncomplete_".data)]
  simp

lemma incompleteKey_ne_of_head {s : String} (hs : s.data.head? ≠ some 'i')
    (t : String) : incompleteKey t ≠ s := by
  intro h
  exact hs (h ▸ incompleteKey_head t)

/-- `(score_schema inp).2` on a successful crawl with JSON-LD present. -/
lemma score_schema_snd (inp : SchemaInput) (hok : inp.ok = true)
    (hne : inp.schemas ≠ []) :
    (score_schema inp).2 =
      (if inp.schemas.all (fun s => s.hasContext || s.hasGraphKey) then []
       else ["invalid_jsonld_structure"]) ++
      (if (schemaAllTypes inp).any (fun t => identityTypes.contains t) then []
       else ["no_organization_schema"]) ++
      (qualityLoop (schemaAllObjects inp)).finds := by
  unfold score_schema
  rw [hok]
  simp only [Bool.not_true, Bool.false_eq_true, if_false]
  rw [if_neg (by simpa [List.isEmpty_iff] using hne)]

lemma qualityLoop_eq_foldObjs (objs : List SObj) :
    qualityLoop objs = objs.foldl qualityObjStep ⟨[], 0, 0, []⟩ := rfl

/-- C7 counterexample: on `orgMissingUrl` the recognized type Organization
is present and missing required property `url`, and FAQPage and the
Article family are absent, yet the findings list is empty — the scorer
emits neither `incomplete_organization_schema` (identity types are skipped
by the completeness loop) nor `no_faqpage_schema` / `no_article_schema`
(no code path appends them). -/
theorem schema_findings_claim_counterexample :
    requiredMissing (.mk (.str "Organization") ["name"] true false .nil) "Organization"
      = ["url"] ∧
    (score_schema orgMissingUrl).2 = [] := by
  constructor
  · decide
  · rfl

/-- C7 (amended): on a successful crawl with JSON-LD present, the Schema
scorer (1) never emits `no_faqpage_schema` or `no_article_schema` — the
absence of FAQPage or Article-family types produces no finding; (2) emits
`no_organization_schema` when no identity type (Organization /
LocalBusiness / Corporation) is present; and (3) emits
`incomplete_<type>_schema` for a recognized non-identity type exactly when
the first object carrying that type misses one of its required properties
— identity types are scored in the 15-point identity block and never yield
an incomplete finding. -/
theorem schema_findings_amended (inp : SchemaInput) (hok : inp.ok = true)
    (hne : inp.schemas ≠ []) :
    ("no_faqpage_schema" ∉ (score_schema inp).2 ∧
     "no_article_schema" ∉ (score_schema inp).2) ∧
    (((schemaAllTypes inp).any (fun t => identityTypes.contains t)) = false →
      "no_organization_schema" ∈ (score_schema inp).2) ∧
    (∀ (T : String) (o : SObj),
      (schemaAllObjects inp).find? (fun o' => decide (T ∈ o'.objTypes)) = some o →
      T ∉ identityTypes →
      (SCHEMA_REQUIRED_PROPS.lookup T).isSome →
      requiredMissing o T ≠ [] →
      incompleteKey T ∈ (score_schema inp).2) := by
  rw [score_schema_snd inp hok hne, qualityLoop_eq_foldObjs]
  refine ⟨⟨?_, ?_⟩, ?_, ?_⟩
  · intro hmem
    rcases List.mem_append.mp hmem with h | h
    · rcases List.mem_append.mp h with h' | h'
      · revert h'
        split_ifs <;> decide
      · revert h'
        split_ifs <;> decide
    · rcases qualityFoldObjs_finds_shape _ _ h with h' | ⟨t, ht⟩
      · simp at h'
      · exact incompleteKey_ne_of_head (by decide) t ht.symm
  · intro hmem
    rcases List.mem_append.mp hmem with h | h
    · rcases List.mem_append.mp h with h' | h'
      · revert h'
        split_ifs <;> decide
      · revert h'
        split_ifs <;> decide
    · rcases qualityFoldObjs_finds_shape _ _ h with h' | ⟨t, ht⟩
      · simp at h'
      · exact incompleteKey_ne_of_head (by decide) t ht.symm
  · intro hid
    rw [hid]
    simp
  · intro T o hfind hni hreq hmiss
    refine List.mem_append.mpr (Or.inr ?_)
    exact qualityFoldObjs_emits _ _ hfind (by simp) hni hreq hmiss

/-- C7 witness: on `websiteOnly`, the amended theorem yields the concrete
`incomplete_website_schema` finding (and the absence of
`no_faqpage_schema`). -/
theorem schema_findings_amended_witness :
    "incomplete_website_schema" ∈ (score_schema websiteOnly).2 ∧
    "no_faqpage_schema" ∉ (score_schema websiteOnly).2 := by
  have h := schema_findings_amended websiteOnly rfl (by simp [websiteOnly])
  refine ⟨?_, h.1.1⟩
  have h3 := h.2.2 "WebSite" (.mk (.str "WebSite") [] true false .nil)
    rfl (by decide) (by decide) (by decide)
  exact (by decide : incompleteKey "WebSite" = "incomplete_website_schema") ▸ h3

/-- C5 (code bug): the Schema scorer emits `incomplete_website_schema` on
`websiteOnly`, but `RECOMMENDATION_RULES` has no entry for it, so
`generate_recommendations` silently drops it: of the two findings emitted
for this page only `no_organization_schema` yields a recommendation (the
same holds for the webpage, breadcrumblist, videoobject, event, review,
aggregaterating, softwareapplication and service incomplete keys). -/
theorem incomplete_website_schema_dropped :
    (score_schema websiteOnly).2 = ["no_organization_schema", "incomplete_website_schema"] ∧
    RECOMMENDATION_RULES.lookup "incomplete_website_schema" = none ∧
    generate_recommendations
      [("content", []), ("schema", (score_schema websiteOnly).2), ("eeat", []),
       ("technical", []), ("entity", []), ("ai_visibility", [])] =
      [⟨"schema", "high", "Add Organization Schema", "schema"⟩] := by
  refine ⟨by decide, by decide, by decide⟩

/-- C9: `score_entity` and `score_ai_visibility` can both emit
`brand_not_in_ai` in the same run; `generate_recommendations` looks each
finding up independently and never deduplicates, so the returned list
holds the identical recommendation entry twice, each filling one of the
at-most-10 slots. -/
theorem recommendations_duplicate_brand_not_in_ai :
    (score_entity entityLlmNoKp).2 = ["brand_not_in_ai"] ∧
    (score_ai_visibility aiVisNoMentions).2 = ["brand_not_in_ai"] ∧
    generate_recommendations
      [("content", []), ("schema", []), ("eeat", []), ("technical", []),
       ("entity", (score_entity entityLlmNoKp).2),
       ("ai_visibility", (score_ai_visibility aiVisNoMentions).2)] =
      [⟨"entity", "high", "Improve AI Brand Visibility", "entity"⟩,
       ⟨"entity", "high", "Improve AI Brand Visibility", "entity"⟩] ∧
    (generate_recommendations
      [("content", []), ("schema", []), ("eeat", []), ("technical", []),
       ("entity", (score_entity entityLlmNoKp).2),
       ("ai_visibility", (score_ai_visibility aiVisNoMentions).2)]).length
      ≤ MAX_RECOMMENDATIONS := by
  refine ⟨by decide, by decide, by decide, by decide⟩

lemma crawlStep_cont {env : ℕ → Outcome} {k : ℕ} {st : CrawlSt}
    (h : (env k).retryable = true) :
    crawlStep env k st = .cont ⟨errOf (env k), statusUpd (env k) st.statusCode,
      st.sleeps ++ [(sleepOf k (env k)).getD 0], st.uaIndices ++ [k % 3]⟩ := by
  unfold crawlStep
  rcases ho : env k with _ | m | m | s <;>
    simp_all [Outcome.retryable, errOf, statusUpd, sleepOf]
  have hne : s ≠ 200 := by
    intro hc
    subst hc
    simp [RETRY_STATUSES] at h
  simp [hne, h]

lemma crawlStep_done {env : ℕ → Outcome} {k : ℕ} {st : CrawlSt}
    (h : (env k).retryable = false) :
    crawlStep env k st = .done ⟨statusUpd (env k) st.statusCode, doneErr (env k),
      k + 1, st.sleeps, st.uaIndices ++ [k % 3]⟩ := by
  unfold crawlStep
  rcases ho : env k with _ | m | m | s <;>
    simp_all [Outcome.retryable, errOf, doneErr, statusUpd]
  by_cases h200 : s = 200
  · subst h200
    simp
  · simp [h200, h]

lemma sleepOf_of_retryable {k : ℕ} {o : Outcome} (h : o.retryable = true) :
    sleepOf k o = some ((sleepOf k o).getD 0) := by
  rcases o with _ | m | m | s <;> simp_all [Outcome.retryable, sleepOf]

lemma sleepOf_of_done {k : ℕ} {o : Outcome} (h : o.retryable = false) :
    sleepOf k o = none := by
  rcases o with _ | m | m | s <;> simp_all [Outcome.retryable, sleepOf]

lemma crawl_page_done0 {env : ℕ → Outcome} (h0 : (env 0).retryable = false) :
    crawl_page env = ⟨statusUpd (env 0) 0, doneErr (env 0), 1, [], [0]⟩ := by
  unfold crawl_page
  rw [crawlStep_done h0]
  rfl

lemma crawl_page_done1 {env : ℕ → Outcome} (h0 : (env 0).retryable = true)
    (h1 : (env 1).retryable = false) :
    crawl_page env = ⟨statusUpd (env 1) (statusUpd (env 0) 0), doneErr (env 1), 2,
      [(sleepOf 0 (env 0)).getD 0], [0, 1]⟩ := by
  unfold crawl_page
  rw [crawlStep_cont h0]
  dsimp only
  rw [crawlStep_done h1]
  rfl

lemma crawl_page_done2 {env : ℕ → Outcome} (h0 : (env 0).retryable = true)
    (h1 : (env 1).retryable = true) (h2 : (env 2).retryable = false) :
    crawl_page env = ⟨statusUpd (env 2) (statusUpd (env 1) (statusUpd (env 0) 0)),
      doneErr (env 2), 3,
      [(sleepOf 0 (env 0)).getD 0, (sleepOf 1 (env 1)).getD 0], [0, 1, 2]⟩ := by
  unfold crawl_page
  rw [crawlStep_cont h0]
  dsimp only
  rw [crawlStep_cont h1]
  dsimp only
  rw [crawlStep_done h2]
  rfl

lemma crawl_page_cont3 {env : ℕ → Outcome} (h0 : (env 0).retryable = true)
    (h1 : (env 1).retryable = true) (h2 : (env 2).retryable = true) :
    crawl_page env = ⟨statusUpd (env 2) (statusUpd (env 1) (statusUpd (env 0) 0)),
      errOf (env 2), 3,
      [(sleepOf 0 (env 0)).getD 0, (sleepOf 1 (env 1)).getD 0,
       (sleepOf 2 (env 2)).getD 0], [0, 1, 2]⟩ := by
  unfold crawl_page
  rw [crawlStep_cont h0]
  dsimp only
  rw [crawlStep_cont h1]
  dsimp only
  rw [crawlStep_cont h2]
  rfl

/-- C8 counterexample: on three consecutive timeouts — a retryable failure
kind — the crawler sleeps a fixed 1 second after each attempt
(crawler.py line 93), not the 2s/4s linear backoff the claim asserts for
all retryable kinds. -/
theorem crawl_backoff_claim_counterexample :
    (crawl_page allTimeoutEnv).attempts = 3 ∧
    (crawl_page allTimeoutEnv).error = "Request timed out" ∧
    (crawl_page allTimeoutEnv).sleeps = [1, 1, 1] ∧
    (crawl_page allTimeoutEnv).sleeps.take 2 ≠ [2, 4] := by
  refine ⟨rfl, rfl, rfl, by decide⟩

/-- C8 (amended): `crawl_page` makes at most 3 attempts (1 initial + 2
retries) rotating the 3-element user-agent pool; it retries exactly on
timeout, connection error and HTTP 429/500/502/503/504; the sleep after
attempt `k` is `2*(k+1)` seconds (2s, 4s between retries) for the HTTP
statuses but a fixed 1 second for timeouts and connection errors; any
other non-200 HTTP status is terminal — no retry, the status and
`"HTTP <status>"` recorded on the result. -/
theorem crawl_retry_policy (env : ℕ → Outcome) :
    (crawl_page env).attempts ≤ 3 ∧
    (crawl_page env).uaIndices = (List.range (crawl_page env).attempts).map (fun k => k % 3) ∧
    (crawl_page env).sleeps =
      (List.range (crawl_page env).attempts).filterMap (fun k => sleepOf k (env k)) ∧
    (∀ k, k + 1 < (crawl_page env).attempts → (env k).retryable = true) ∧
    (∀ k s, k < 3 → (∀ j, j < k → (env j).retryable = true) → env k = .http s →
      s ∉ RETRY_STATUSES → s ≠ 200 →
      (crawl_page env).attempts = k + 1 ∧ (crawl_page env).statusCode = s ∧
      (crawl_page env).error = "HTTP " ++ toString s) := by
  have hterm : ∀ s : ℕ, s ∉ RETRY_STATUSES → (Outcome.http s).retryable = false := by
    intro s hs
    simpa [Outcome.retryable] using hs
  by_cases h0 : (env 0).retryable = true
  · by_cases h1 : (env 1).retryable = true
    · by_cases h2 : (env 2).retryable = true
      · obtain ⟨v0, hv0⟩ : ∃ v, sleepOf 0 (env 0) = some v :=
          ⟨_, sleepOf_of_retryable h0⟩
        obtain ⟨v1, hv1⟩ : ∃ v, sleepOf 1 (env 1) = some v :=
          ⟨_, sleepOf_of_retryable h1⟩
        obtain ⟨v2, hv2⟩ : ∃ v, sleepOf 2 (env 2) = some v :=
          ⟨_, sleepOf_of_retryable h2⟩
        rw [crawl_page_cont3 h0 h1 h2]
        refine ⟨by norm_num, rfl, ?_, ?_, ?_⟩
        · rw [show List.range 3 = [0, 1, 2] from rfl]
          simp [hv0, hv1, hv2]
        · intro k hk
          match k with
          | 0 => exact h0
          | 1 => exact h1
          | _ + 2 => dsimp only at hk; omega
        · intro k s hk hprev hks hnre _
          match k with
          | 0 => rw [hks] at h0; rw [hterm s hnre] at h0; cases h0
          | 1 => rw [hks] at h1; rw [hterm s hnre] at h1; cases h1
          | 2 => rw [hks] at h2; rw [hterm s hnre] at h2; cases h2
      · replace h2 : (env 2).retryable = false := by simpa using h2
        obtain ⟨v0, hv0⟩ : ∃ v, sleepOf 0 (env 0) = some v :=
          ⟨_, sleepOf_of_retryable h0⟩
        obtain ⟨v1, hv1⟩ : ∃ v, sleepOf 1 (env 1) = some v :=
          ⟨_, sleepOf_of_retryable h1⟩
        rw [crawl_page_done2 h0 h1 h2]
        refine ⟨by norm_num, rfl, ?_, ?_, ?_⟩
        · rw [show List.range 3 = [0, 1, 2] from rfl]
          simp [hv0, hv1, sleepOf_of_done h2]
        · intro k hk
          match k with
          | 0 => exact h0
          | 1 => exact h1
          | _ + 2 => dsimp only at hk; omega
        · intro k s hk hprev hks hnre h200
          match k with
          | 0 => rw [hks, hterm s hnre] at h0; cases h0
          | 1 => rw [hks, hterm s hnre] at h1; cases h1
          | 2 =>
              rw [hks]
              simp [statusUpd, doneErr, h200]
    · replace h1 : (env 1).retryable = false := by simpa using h1
      obtain ⟨v0, hv0⟩ : ∃ v, sleepOf 0 (env 0) = some v :=
        ⟨_, sleepOf_of_retryable h0⟩
      rw [crawl_page_done1 h0 h1]
      refine ⟨by norm_num, rfl, ?_, ?_, ?_⟩
      · rw [show List.range 2 = [0, 1] from rfl]
        simp [hv0, sleepOf_of_done h1]
      · intro k hk
        match k with
        | 0 => exact h0
        | _ + 1 => dsimp only at hk; omega
      · intro k s hk hprev hks hnre h200
        match k with
        | 0 => rw [hks, hterm s hnre] at h0; cases h0
        | 1 =>
            rw [hks]
            simp [statusUpd, doneErr, h200]
        | 2 =>
            have := hprev 1 (by norm_num)
            rw [this] at h1
            cases h1
  · replace h0 : (env 0).retryable = false := by simpa using h0
    rw [crawl_page_done0 h0]
    refine ⟨by norm_num, rfl, ?_, ?_, ?_⟩
    · rw [show List.range 1 = [0] from rfl]
      simp [sleepOf_of_done h0]
    · intro k hk
      dsimp only at hk
      omega
    · intro k s hk hprev hks hnre h200
      match k with
      | 0 =>
          rw [hks]
          simp [statusUpd, doneErr, h200]
      | _ + 1 =>
          have := hprev 0 (by omega)
          rw [this] at h0
          cases h0

/-- C8 witness: on `retryThen404Env` the amended policy gives 2 attempts, a
single 2-second sleep (after the 503), and the terminal 404 recorded. -/
theorem crawl_retry_policy_witness :
    (crawl_page retryThen404Env).attempts = 2 ∧
    (crawl_page retryThen404Env).statusCode = 404 ∧
    (crawl_page retryThen404Env).error = "HTTP " ++ toString 404 ∧
    (crawl_page retryThen404Env).sleeps =
      (List.range (crawl_page retryThen404Env).attempts).filterMap
        (fun k => sleepOf k (retryThen404Env k)) := by
  obtain ⟨-, -, hsleeps, -, hterm⟩ := crawl_retry_policy retryThen404Env
  obtain ⟨ha, hs, he⟩ := hterm 1 404 (by norm_num)
    (by intro j hj; interval_cases j; decide) rfl (by decide) (by decide)
  exact ⟨ha, hs, he, hsleeps⟩

/-- C3 (code bug): in the partial-analysis path Content/Schema/E-E-A-T are
forced to 0 with an explanatory note and Technical still scores from the
auxiliary files and the URL scheme (here 55 of the 70 HTML-free points,
rescaled to 550/7), but Entity and AI-Visibility do NOT score from the
URL-derived brand name: both return 0 immediately because `crawl.ok` is
false (entity.py lines 175-176, ai_visibility.py lines 414-415), even
with every other signal favourable — contradicting the claim and the
docstring of `_run_partial_analysis` ("Also runs entity + AI visibility
via LLM"). -/
theorem partial_analysis_entity_ai_zero :
    (score_entity failedEntityIn).1 = 0 ∧
    (score_ai_visibility failedAiIn).1 = 0 ∧
    (run_partial_analysis "HTTP 403" failedTechIn failedEntityIn failedAiIn).contentScore = 0 ∧
    (run_partial_analysis "HTTP 403" failedTechIn failedEntityIn failedAiIn).contentNote =
      "Page content could not be accessed: HTTP 403" ∧
    (run_partial_analysis "HTTP 403" failedTechIn failedEntityIn failedAiIn).schemaScore = 0 ∧
    (run_partial_analysis "HTTP 403" failedTechIn failedEntityIn failedAiIn).eeatScore = 0 ∧
    (run_partial_analysis "HTTP 403" failedTechIn failedEntityIn failedAiIn).entityScore = 0 ∧
    (run_partial_analysis "HTTP 403" failedTechIn failedEntityIn failedAiIn).aiVisScore = 0 ∧
    (run_partial_analysis "HTTP 403" failedTechIn failedEntityIn failedAiIn).technicalScore
      = 550 / 7 := by
  refine ⟨rfl, rfl, rfl, rfl, rfl, rfl, rfl, rfl, ?_⟩
  show (score_technical failedTechIn).1 = 550 / 7
  norm_num [score_technical, failedTechIn, safe_score, min_def, max_def]

/-- C4 (code bug): for every competitor whose crawl succeeds,
`_score_competitor_static` raises `TypeError` at the
`score_eeat(crawl, skip_gemini=True)` call — `score_eeat` accepts only
`crawl` (eeat.py line 344) — so the static pillar stack never completes
and no competitor is ever recorded with `scored=True`; a failed competitor
crawl still returns `(None, 0.0)` as specified. -/
theorem competitor_scoring_raises_type_error :
    kwargsBind score_eeat_params competitor_eeat_kwargs = false ∧
    score_competitor_static okCompetitorIn =
      .error "TypeError: score_eeat() got an unexpected keyword argument skip_gemini" ∧
    score_competitor_static { okCompetitorIn with ok := false } = .ok (none, 0) := by
  exact ⟨rfl, rfl, rfl⟩

end Rankking
